import Mathlib

/-!
Verification development for the `EnhancedSensorSystem` class of
`enhanced_sensor_system.py` (predictive-maintenance demo for a bucket
elevator).  The Python code is shallowly embedded: floats become `ℚ`,
transcendental functions (`math.sin`, `math.cos`, `math.exp`, `math.pi`),
the random noise samples and the two clocks (`time.time()`,
`datetime.now()`) are abstracted as inputs supplied through an `Env`
record, and the outward PHP transmitter is abstracted as a three-valued
outcome (absent / raising / succeeding).  Everything else follows the
source line by line.
-/

namespace ESS

/-- The five sensor channels, in the insertion order of the Python
`self.sensors` dict (iteration order of `dict.items()` in CPython). -/
inductive SensorName
  | speed_rpm
  | load_kg
  | temperature_c
  | vibration_ms2
  | current_a
deriving DecidableEq, Repr

/-- `self.sensors.items()` iteration order. -/
def sensorOrder : List SensorName :=
  [.speed_rpm, .load_kg, .temperature_c, .vibration_ms2, .current_a]

/-- One entry of the `self.sensors` dict.  The `unit` string and the
purely presentational fields are elided; `optimal_range` is split into
its two components. -/
structure SensorChannel where
  value : ℚ
  min : ℚ
  max : ℚ
  alarm_threshold : ℚ
  critical_threshold : ℚ
  optimal_lo : ℚ
  optimal_hi : ℚ
  calibration_factor : ℚ
deriving DecidableEq, Repr

/-- Alarm severities occurring in the source (`'MEDIUM'`, `'HIGH'`,
`'CRITICAL'`). -/
inductive Severity
  | MEDIUM
  | HIGH
  | CRITICAL
deriving DecidableEq, Repr

/-- The cooldown keys of `self.last_alarm_time`: the source uses the
strings `f"{sensor_name}_{severity}"` for direct threshold alarms and
`f"{sensor_name}_trend"` for trend alarms; with the five fixed sensor
names these strings are pairwise distinct, so an inductive key type is a
faithful model. -/
inductive AlarmKey
  | direct (n : SensorName) (sev : Severity)
  | trendKey (n : SensorName)
deriving DecidableEq, Repr

/-- An alarm record as built in `_check_comprehensive_alarms` /
`_check_trend_alarms`; the free-text `message` field is presentation
only and elided.  Timestamps are `datetime.now()` modelled as seconds
(`ℚ`). -/
structure Alarm where
  timestamp : ℚ
  sensor : SensorName
  severity : Severity
  priority : ℕ
  value : ℚ
  threshold : ℚ
deriving DecidableEq, Repr

/-- One entry of `self.trend_data`. -/
structure TrendData where
  slope : ℚ
  r_squared : ℚ
deriving DecidableEq, Repr

/-- Priorities of maintenance recommendations (`'Low'`/`'Medium'`/`'High'`). -/
inductive RecPriority
  | Low
  | Medium
  | High
deriving DecidableEq, Repr

/-- A maintenance recommendation; the formatted `description` string is
presentation only and elided. -/
structure Recommendation where
  rtype : String
  priority : RecPriority
  estimated_days : ℤ
deriving DecidableEq, Repr

/-- The mutable state of an `EnhancedSensorSystem` instance, restricted
to the fields the embedded operations read or write.  The history
buffers keep only the values (their timestamps are never read by the
core logic). -/
structure SysState where
  sensors : SensorName → SensorChannel
  history : SensorName → List ℚ
  alarms : List Alarm
  lastAlarmTime : AlarmKey → Option ℚ
  health_score : ℚ
  trend : SensorName → TrendData
  bearing_wear : ℚ
  belt_degradation : ℚ
  motor_efficiency : ℚ
  lubrication_quality : ℚ
  remaining_useful_life : ℚ
  operating_hours : ℚ
  reading_count : ℕ
  last_transmission : ℚ
  efficiency : ℚ
  uptime : ℚ
  throughput : ℚ
  energy_consumption : ℚ
  maintenance_recommendations : List Recommendation

/-- Per-tick environment: abstractions of the transcendental functions,
the realized random samples, and the two clocks used by the source. -/
structure Env where
  /-- `math.pi` -/
  pi : ℚ
  /-- `math.sin` -/
  sin : ℚ → ℚ
  /-- `math.cos` -/
  cos : ℚ → ℚ
  /-- `math.exp` -/
  exp : ℚ → ℚ
  /-- `math.sin(time.time() * 2)` — wall-clock-dependent mechanical variation -/
  sinWallTwice : ℚ
  /-- the realized `random.uniform(-1, 1)` sample in the vibration model -/
  uniformNoise : ℚ
  /-- the realized `random.gauss(0, noise_level)` sample per channel -/
  gauss : SensorName → ℚ
  /-- `datetime.now()` as seconds -/
  now : ℚ
  /-- `time.time()` -/
  wallClock : ℚ

/-- Outcome of the outward PHP-connector interface for one tick:
`offline` = connector absent or not connected; `failing` = some
`send_*` / `update_machine_status` call raises; `ok` = all calls
succeed. -/
inductive TransmitterOutcome
  | offline
  | failing
  | ok
deriving DecidableEq, Repr

/-! ## Python numeric helpers -/

/-- The floor of a rational, written so that it evaluates inside the
kernel: Euclidean division of the numerator by the (positive)
denominator. -/
def pyFloor (q : ℚ) : ℤ := q.num / q.den

/-- `pyFloor` is the mathematical floor. -/
theorem pyFloor_eq (q : ℚ) : pyFloor q = ⌊q⌋ := Rat.floor_def.symm

/-- Python `int(x)` on a float: truncation toward zero. -/
def pyTrunc (q : ℚ) : ℤ := if 0 ≤ q then pyFloor q else -pyFloor (-q)

/-- Python float `x % y` for `y > 0`: `x - y * floor(x / y)`. -/
def pyFloatMod (x y : ℚ) : ℚ := x - y * pyFloor (x / y)

/-- Python `l[-n:]`: the last `n` elements (whole list when shorter). -/
def lastN (n : ℕ) (l : List α) : List α := l.drop (l.length - n)

/-! ## Constants of `__init__` -/

/-- `self.alarm_cooldown = 30` (seconds); assigned once and never
mutated anywhere in the repository. -/
def alarmCooldown : ℚ := 30

/-- The 5-minute cooldown literal (`> 300`) of `_check_trend_alarms`. -/
def trendCooldown : ℚ := 300

/-- `self.max_history_points = 1000`. -/
def maxHistoryPoints : ℕ := 1000

/-- `self.transmission_interval = 3` (seconds). -/
def transmissionInterval : ℚ := 3

/-- The sensor configuration literals of `__init__`. -/
def initSensors : SensorName → SensorChannel
  | .speed_rpm =>
      { value := 0, min := 0, max := 100, alarm_threshold := 90,
        critical_threshold := 95, optimal_lo := 40, optimal_hi := 60,
        calibration_factor := 1 }
  | .load_kg =>
      { value := 0, min := 0, max := 1000, alarm_threshold := 900,
        critical_threshold := 950, optimal_lo := 400, optimal_hi := 700,
        calibration_factor := 1 }
  | .temperature_c =>
      { value := 25, min := 20, max := 80, alarm_threshold := 70,
        critical_threshold := 75, optimal_lo := 25, optimal_hi := 45,
        calibration_factor := 1 }
  | .vibration_ms2 =>
      { value := 0, min := 0, max := 20, alarm_threshold := 15,
        critical_threshold := 18, optimal_lo := 2, optimal_hi := 8,
        calibration_factor := 1 }
  | .current_a =>
      { value := 0, min := 0, max := 50, alarm_threshold := 45,
        critical_threshold := 48, optimal_lo := 15, optimal_hi := 35,
        calibration_factor := 1 }

/-- The full `__init__` state (with no PHP connector, so
`load_sensor_config` is not invoked). -/
def initState : SysState where
  sensors := initSensors
  history := fun _ => []
  alarms := []
  lastAlarmTime := fun _ => none
  health_score := 100
  trend := fun _ => { slope := 0, r_squared := 0 }
  bearing_wear := 0
  belt_degradation := 0
  motor_efficiency := 1
  lubrication_quality := 1
  remaining_useful_life := 85
  operating_hours := 0
  reading_count := 0
  last_transmission := 0
  efficiency := 0.95
  uptime := 0.98
  throughput := 0.85
  energy_consumption := 100
  maintenance_recommendations := []

/-! ## Sensor value updates (`_update_*_sensor`) -/

/-- Write a new value into one channel of the bank. -/
def setValue (bank : SensorName → SensorChannel) (n : SensorName) (v : ℚ) :
    SensorName → SensorChannel :=
  fun m => if m = n then { bank m with value := v } else bank m

/-- `_update_speed_sensor`. -/
def updateSpeedSensor (env : Env) (belt_speed : ℚ) (s : SysState) : SysState :=
  let pulley_circumference := 2 * env.pi * 0.6
  let base_rpm := belt_speed / pulley_circumference * 60
  let mechanical_variation := env.sinWallTwice * 2
  let load_effect := (s.sensors .load_kg).value / 1000 * (-5)
  let v := max 0 (base_rpm + mechanical_variation + load_effect)
  { s with sensors := setValue s.sensors SensorName.speed_rpm v }

/-- `_update_load_sensor`. -/
def updateLoadSensor (env : Env) (material_count operating_time : ℚ)
    (s : SysState) : SysState :=
  let base_load : ℚ := 100
  let material_load := material_count * 2.5
  let loading_cycles := env.sin (operating_time * 0.1) * 50
  let settling_effect := env.cos (operating_time * 0.05) * 20
  let wear_factor := min (s.operating_hours / 1000) 0.2 * 30
  let v := base_load + material_load + loading_cycles + settling_effect + wear_factor
  { s with sensors := setValue s.sensors SensorName.load_kg v }

/-- `_update_temperature_sensor`.  (The local `cooling_efficiency` in the
source is computed but never used — it does not enter `target_temp` —
so it has no counterpart here.) -/
def updateTemperatureSensor (env : Env) (operating_time : ℚ)
    (s : SysState) : SysState :=
  let ambient_temp : ℚ := 25
  let motor_heat := (s.sensors .current_a).value / 50 * 25
  let friction_heat := (s.sensors .load_kg).value / 1000 * 15
  let speed_heat := (s.sensors .speed_rpm).value / 100 * 10
  let thermal_buildup := min (s.operating_hours / 4) 1 * 20
  let time_of_day_factor := env.sin (operating_time / 86400 * 2 * env.pi) * 5
  let target_temp := ambient_temp + motor_heat + friction_heat + speed_heat +
      thermal_buildup + time_of_day_factor
  let current_temp := (s.sensors .temperature_c).value
  let temp_change_rate : ℚ := 0.1
  let v := current_temp + (target_temp - current_temp) * temp_change_rate
  { s with sensors := setValue s.sensors SensorName.temperature_c v }

/-- `_update_vibration_sensor`. -/
def updateVibrationSensor (env : Env) (operating_time : ℚ)
    (s : SysState) : SysState :=
  let base_vibration : ℚ := 2
  let speed_vib := (s.sensors .speed_rpm).value / 100 * 6
  let load_imbalance := |(s.sensors .load_kg).value - 500| / 500 * 4
  let bearing_wear := min (s.operating_hours / 1000) 1 * 8
  let misalignment := env.sin (operating_time * 0.3) * 2
  let rpm := (s.sensors .speed_rpm).value
  let resonance := if 45 ≤ rpm ∧ rpm ≤ 55
    then 3 * env.sin ((rpm - 50) * env.pi / 5) else 0
  let mechanical_noise := env.uniformNoise
  let v := base_vibration + speed_vib + load_imbalance + bearing_wear +
    misalignment + resonance + mechanical_noise
  { s with sensors := setValue s.sensors SensorName.vibration_ms2 v }

/-- `_update_current_sensor`. -/
def updateCurrentSensor (env : Env) (operating_time : ℚ)
    (s : SysState) : SysState :=
  let base_current : ℚ := 5
  let load_current := (s.sensors .load_kg).value / 1000 * 25
  let speed_current := (s.sensors .speed_rpm).value / 100 * 8
  let temp_factor := 1 + max 0 ((s.sensors .temperature_c).value - 40) * 0.01
  let efficiency_loss := min (s.operating_hours / 2000) 0.15
  let efficiency_factor := 1 + efficiency_loss
  let power_factor_variation := env.sin (operating_time * 0.7) * 0.1 + 1
  let starting_spike := if pyTrunc operating_time % 300 < 2
    then 10 * env.exp (-(pyFloatMod operating_time 300)) else 0
  let v := (base_current + load_current + speed_current + starting_spike) *
    temp_factor * efficiency_factor * power_factor_variation
  { s with sensors := setValue s.sensors SensorName.current_a v }

/-- `_apply_sensor_calibration`: multiply every channel by its
calibration factor; additionally floor the vibration channel at 0. -/
def applySensorCalibration (s : SysState) : SysState :=
  { s with sensors := fun n =>
      let c := s.sensors n
      let v := c.value * c.calibration_factor
      { c with value := if n = .vibration_ms2 then max 0 v else v } }

/-- `_add_realistic_noise`: add the realized gaussian sample to every
channel (all five channels appear in `noise_levels`). -/
def addRealisticNoise (env : Env) (s : SysState) : SysState :=
  { s with sensors := fun n =>
      { s.sensors n with value := (s.sensors n).value + env.gauss n } }

/-- `_enforce_sensor_bounds`:
`value = max(min_bound, min(max_bound, value))` per channel. -/
def enforceSensorBounds (s : SysState) : SysState :=
  { s with sensors := fun n =>
      let c := s.sensors n
      { c with value := max c.min (min c.max c.value) } }

/-- `_store_historical_data`: append the current value, then drop the
oldest entry if the buffer exceeds `max_history_points`. -/
def storeHistoricalData (s : SysState) : SysState :=
  { s with history := fun n =>
      let h := s.history n ++ [(s.sensors n).value]
      if h.length > maxHistoryPoints then h.drop 1 else h }

/-! ## Performance metrics, health score, failure predictions -/

/-- `_calculate_performance_metrics`.  (No numeric exception can occur:
the denominator is floored at 1, so the `except` branch is dead here.) -/
def calculatePerformanceMetrics (s : SysState) : SysState :=
  let optimal_power : ℚ := 30
  let actual_power := (s.sensors .current_a).value * 0.4
  let recent_critical_alarms :=
    ((lastN 10 s.alarms).filter (fun a => a.severity = Severity.CRITICAL)).length
  let uptime_factor := max 0.5 (1 - (recent_critical_alarms : ℚ) * 0.1)
  let speed_efficiency := (s.sensors .speed_rpm).value / 60
  let load_efficiency := min 1 ((s.sensors .load_kg).value / 600)
  { s with
    efficiency := min 1 (optimal_power / max actual_power 1),
    uptime := uptime_factor,
    throughput := speed_efficiency * load_efficiency * 0.95,
    energy_consumption := actual_power }

/-- The per-channel deduction of `_update_health_score`: outside the
optimal range, a penalty proportional to the fractional deviation from
the nearest optimal bound, capped at 10 points. -/
def healthPenalty (c : SensorChannel) : ℚ :=
  if c.value < c.optimal_lo ∨ c.optimal_hi < c.value then
    let deviation := if c.value < c.optimal_lo
      then (c.optimal_lo - c.value) / c.optimal_lo
      else (c.value - c.optimal_hi) / c.optimal_hi
    min 10 (deviation * 20)
  else 0

/-- `_update_health_score`: start from 100, subtract the per-channel
deviation penalties, an age penalty saturating at 1.5 points per 10% of
a year (max `0.1 * 15`), and 2 points per HIGH/CRITICAL alarm among the
last 20 (capped at 20); clamp the result to `[0, 100]`. -/
def updateHealthScore (s : SysState) : SysState :=
  let sensorPenalties := (sensorOrder.map fun n => healthPenalty (s.sensors n)).sum
  let age_factor := min (s.operating_hours / 8760) 0.1 * 15
  let recent_alarms := ((lastN 20 s.alarms).filter
    (fun a => a.severity = Severity.HIGH ∨ a.severity = Severity.CRITICAL)).length
  let health := 100 - sensorPenalties - age_factor -
    min 20 ((recent_alarms : ℚ) * 2)
  { s with health_score := max 0 (min 100 health) }

/-- `_update_failure_predictions`.  (The Python function receives
`operating_time` but never reads it — it uses `self.operating_hours` —
so the argument has no counterpart here.)  Note the one-sided clamps of
the source: `bearing_wear` is only capped above by `min(1.0, ...)` and
`motor_efficiency` only floored by `max(0, ...)`;
`lubrication_quality` is never written. -/
def updateFailurePredictions (s : SysState) : SysState :=
  let vibration_trend := (s.trend .vibration_ms2).slope
  let bearing := min 1
    (max 0 (((s.sensors .vibration_ms2).value - 5) / 15) + vibration_trend * 0.1)
  let speed_variation := |(s.sensors .speed_rpm).value - 50| / 50
  let belt := min 1 (speed_variation + s.operating_hours / 5000)
  let current_trend := (s.trend .current_a).slope
  let expected_current : ℚ := 25
  let current_deviation :=
    |(s.sensors .current_a).value - expected_current| / expected_current
  let motor := max 0 (1 - current_deviation - current_trend * 0.05)
  let worst_indicator := max (max (max bearing belt) motor) s.lubrication_quality
  { s with
    bearing_wear := bearing,
    belt_degradation := belt,
    motor_efficiency := motor,
    remaining_useful_life := max 0 ((1 - worst_indicator) * 100) }

/-! ## Trend analysis -/

/-- Ordinary least squares over the window, exactly as in
`_perform_trend_analysis`: index-vs-value regression; if the
denominator is zero the channel's trend entry is left unchanged; the
r-squared is clamped to `[0, 1]`. -/
def olsTrend (recent : List ℚ) (old : TrendData) : TrendData :=
  let n := recent.length
  let sum_x := ((List.range n).map fun i => (i : ℚ)).sum
  let sum_y := recent.sum
  let sum_xy := (recent.enum.map fun p => (p.1 : ℚ) * p.2).sum
  let sum_xx := ((List.range n).map fun i => ((i : ℚ) * i)).sum
  let denominator := (n : ℚ) * sum_xx - sum_x * sum_x
  if denominator ≠ 0 then
    let slope := ((n : ℚ) * sum_xy - sum_x * sum_y) / denominator
    let mean_y := sum_y / n
    let ss_tot := (recent.map fun v => (v - mean_y) ^ 2).sum
    let r_squared := if ss_tot > 0 then
        let y_intercept := (sum_y - slope * sum_x) / n
        let ss_res := (recent.enum.map fun p =>
          (p.2 - (slope * p.1 + y_intercept)) ^ 2).sum
        1 - ss_res / ss_tot
      else 0
    { slope := slope, r_squared := max 0 (min 1 r_squared) }
  else old

/-- The per-channel body of `_perform_trend_analysis`: channels with
fewer than 10 history points are skipped; otherwise the regression runs
over the last 20 points. -/
def analyzeTrend (hist : List ℚ) (old : TrendData) : TrendData :=
  if hist.length ≥ 10 then olsTrend (lastN 20 hist) old else old

/-- `_perform_trend_analysis` over all channels. -/
def performTrendAnalysis (s : SysState) : SysState :=
  { s with trend := fun n => analyzeTrend (s.history n) (s.trend n) }

/-- The guard at the call site in `update_sensors` (lines 154–155):
trend analysis runs only when the speed channel's history holds
strictly more than 10 points. -/
def trendGate (s : SysState) : SysState :=
  if (s.history .speed_rpm).length > 10 then performTrendAnalysis s else s

/-! ## Alarm engine -/

/-- The cooldown key of an alarm record.  Direct threshold alarms carry
severity HIGH or CRITICAL and use the `f"{sensor}_{severity}"` key;
trend alarms are exactly the MEDIUM ones and use `f"{sensor}_trend"`. -/
def alarmKeyOf (a : Alarm) : AlarmKey :=
  match a.severity with
  | .MEDIUM => .trendKey a.sensor
  | sev => .direct a.sensor sev

/-- The cooldown window of a key: `self.alarm_cooldown` (30 s) for
direct keys, the 300 s literal for trend keys. -/
def cooldownOf : AlarmKey → ℚ
  | .direct _ _ => alarmCooldown
  | .trendKey _ => trendCooldown

/-- The threshold classification of `_check_comprehensive_alarms`:
CRITICAL / priority 1 above the critical threshold, HIGH / priority 2
above the alarm threshold, otherwise none. -/
def classifySeverity (c : SensorChannel) : Option (Severity × ℕ) :=
  if c.value > c.critical_threshold then some (.CRITICAL, 1)
  else if c.value > c.alarm_threshold then some (.HIGH, 2)
  else none

/-- The direct-alarm cooldown test: suppressed iff the key fired less
than `alarm_cooldown` seconds ago. -/
def directBlocked (lat : AlarmKey → Option ℚ) (k : AlarmKey) (now : ℚ) : Bool :=
  match lat k with
  | some t => now - t < alarmCooldown
  | none => false

/-- The direct threshold-alarm loop of `_check_comprehensive_alarms`
over a list of channels, threading `self.last_alarm_time` and
collecting the newly emitted alarms in iteration order. -/
def checkDirectAlarms (bank : SensorName → SensorChannel) (now : ℚ) :
    List SensorName → (AlarmKey → Option ℚ) →
    (AlarmKey → Option ℚ) × List Alarm
  | [], lat => (lat, [])
  | n :: rest, lat =>
    match classifySeverity (bank n) with
    | none => checkDirectAlarms bank now rest lat
    | some (sev, prio) =>
      let k := AlarmKey.direct n sev
      if directBlocked lat k now then checkDirectAlarms bank now rest lat
      else
        let a : Alarm :=
          { timestamp := now, sensor := n, severity := sev, priority := prio,
            value := (bank n).value,
            threshold := if sev = Severity.CRITICAL
              then (bank n).critical_threshold else (bank n).alarm_threshold }
        let lat' := fun k' => if k' = k then some now else lat k'
        let res := checkDirectAlarms bank now rest lat'
        (res.1, a :: res.2)

/-- The trend-alarm cooldown test of `_check_trend_alarms`: emission is
allowed when the key never fired or fired strictly more than 300
seconds ago. -/
def trendAllowed (lat : AlarmKey → Option ℚ) (k : AlarmKey) (now : ℚ) : Bool :=
  match lat k with
  | some t => now - t > trendCooldown
  | none => true

/-- The per-channel loop of `_check_trend_alarms`: a MEDIUM priority-3
alarm when the fit is strong (`r_squared > 0.7`), the slope positive,
and the 10-reading linear projection exceeds the alarm threshold,
subject to the trend cooldown key. -/
def checkTrendAlarms (bank : SensorName → SensorChannel)
    (trendMap : SensorName → TrendData) (now : ℚ) :
    List SensorName → (AlarmKey → Option ℚ) →
    (AlarmKey → Option ℚ) × List Alarm
  | [], lat => (lat, [])
  | n :: rest, lat =>
    let td := trendMap n
    if td.r_squared > 0.7 ∧ td.slope > 0 then
      let current_value := (bank n).value
      let threshold := (bank n).alarm_threshold
      let predicted_value := current_value + td.slope * 10
      if predicted_value > threshold then
        let k := AlarmKey.trendKey n
        if trendAllowed lat k now then
          let a : Alarm :=
            { timestamp := now, sensor := n, severity := .MEDIUM, priority := 3,
              value := current_value, threshold := threshold }
          let lat' := fun k' => if k' = k then some now else lat k'
          let res := checkTrendAlarms bank trendMap now rest lat'
          (res.1, a :: res.2)
        else checkTrendAlarms bank trendMap now rest lat
      else checkTrendAlarms bank trendMap now rest lat
    else checkTrendAlarms bank trendMap now rest lat

/-- One complete alarm evaluation (`_check_comprehensive_alarms`
including its `_check_trend_alarms` call), as a function of the
quantities it reads: the clock, the sensor bank and the trend table.
Returns the updated cooldown table and the newly emitted alarms. -/
def alarmTickStep (now : ℚ) (bank : SensorName → SensorChannel)
    (trendMap : SensorName → TrendData) (lat : AlarmKey → Option ℚ) :
    (AlarmKey → Option ℚ) × List Alarm :=
  let d := checkDirectAlarms bank now sensorOrder lat
  let t := checkTrendAlarms bank trendMap now sensorOrder d.1
  (t.1, d.2 ++ t.2)

/-- `_check_comprehensive_alarms` acting on the system state: the new
alarms are appended to `self.alarms` (which is then truncated to its
last 100 entries, the `len > 100` guard being equivalent to the
unconditional `[-100:]` slice) and the cooldown table is updated. -/
def checkComprehensiveAlarms (now : ℚ) (s : SysState) : SysState × List Alarm :=
  let r := alarmTickStep now s.sensors s.trend s.lastAlarmTime
  ({ s with alarms := lastN 100 (s.alarms ++ r.2), lastAlarmTime := r.1 }, r.2)

/-! ## Maintenance recommendations and transmission -/

/-- `_generate_maintenance_recommendations`: the list is cleared and
rebuilt from scratch each tick. -/
def generateMaintenanceRecommendations (s : SysState) : SysState :=
  let l1 : List Recommendation := if s.health_score < 85 then
      [{ rtype := "General Inspection",
         priority := if s.health_score > 70 then .Medium else .High,
         estimated_days := max 1 (pyTrunc ((s.health_score - 60) / 5)) }]
    else []
  let l2 : List Recommendation := if s.bearing_wear > 0.7 then
      [{ rtype := "Bearing Replacement", priority := .High, estimated_days := 7 }]
    else []
  let l3 : List Recommendation := if s.belt_degradation > 0.6 then
      [{ rtype := "Belt Inspection", priority := .Medium, estimated_days := 14 }]
    else []
  let l4 : List Recommendation := if s.motor_efficiency < 0.8 then
      [{ rtype := "Motor Service", priority := .Medium, estimated_days := 21 }]
    else []
  let l5 : List Recommendation :=
    if s.operating_hours > 500 ∧ pyFloatMod s.operating_hours 500 < 1 then
      [{ rtype := "Scheduled Maintenance", priority := .Low, estimated_days := 30 }]
    else []
  { s with maintenance_recommendations := l1 ++ l2 ++ l3 ++ l4 ++ l5 }

/-- `_handle_data_transmission`: when the transmission interval has
elapsed, attempt the outward sends.  With no connector (offline mode)
only a debug message is logged; when any send raises, the exception is
caught and logged inside the function, so in both of those cases the
state — including `self.last_transmission`, whose assignment is only
reached after all sends succeed — is untouched.  No exception ever
escapes, so this is a total function on states. -/
def handleDataTransmission (wall : ℚ) (tr : TransmitterOutcome)
    (s : SysState) : SysState :=
  if wall - s.last_transmission ≥ transmissionInterval then
    match tr with
    | .ok => { s with last_transmission := wall }
    | .failing => s
    | .offline => s
  else s

/-! ## Configuration operations -/

/-- `set_thresholds`: store whichever of the two thresholds are
provided, verbatim, with no validation.  (An unknown sensor name only
logs a warning in Python; the `SensorName` type covers exactly the
known names.) -/
def setThresholds (bank : SensorName → SensorChannel) (n : SensorName)
    (alarm_threshold critical_threshold : Option ℚ) :
    SensorName → SensorChannel :=
  fun m => if m = n then
    { bank m with
      alarm_threshold := alarm_threshold.getD (bank m).alarm_threshold,
      critical_threshold := critical_threshold.getD (bank m).critical_threshold }
  else bank m

/-- One backend configuration record as consumed by
`load_sensor_config`: a sensor type plus optional `threshold_value`
and `max_value` entries. -/
structure BackendSensorConfig where
  stype : SensorName
  threshold_value : Option ℚ
  max_value : Option ℚ

/-- `load_sensor_config`: apply every backend record in order, storing
the provided alarm threshold and max bound verbatim, with no
validation. -/
def loadSensorConfig (bank : SensorName → SensorChannel)
    (config : List BackendSensorConfig) : SensorName → SensorChannel :=
  config.foldl (fun b e => fun m => if m = e.stype then
    { b m with
      alarm_threshold := e.threshold_value.getD (b m).alarm_threshold,
      max := e.max_value.getD (b m).max }
    else b m) bank

/-- `calibrate_sensor`. -/
def calibrateSensor (bank : SensorName → SensorChannel) (n : SensorName)
    (factor : ℚ) : SensorName → SensorChannel :=
  fun m => if m = n then { bank m with calibration_factor := factor } else bank m

/-! ## The tick update -/

/-- The first two lines of `update_sensors`:
`self.operating_hours = operating_time / 3600` and
`self.reading_count += 1`. -/
def startTick (operating_time : ℚ) (s : SysState) : SysState :=
  { s with operating_hours := operating_time / 3600,
           reading_count := s.reading_count + 1 }

/-- `update_sensors(belt_speed, material_count, operating_time)`,
step for step in source order.  All embedded steps are total (the
arithmetic that can raise in Python — division by a zero
`optimal_range` bound — cannot occur for channels with positive
optimal bounds, and every other operation is a total float
computation), so the enclosing `try/except` never fires in the model. -/
def updateSensors (env : Env) (tr : TransmitterOutcome)
    (belt_speed material_count operating_time : ℚ) (s : SysState) : SysState :=
  let s1 := startTick operating_time s
  let s2 := updateSpeedSensor env belt_speed s1
  let s3 := updateLoadSensor env material_count operating_time s2
  let s4 := updateTemperatureSensor env operating_time s3
  let s5 := updateVibrationSensor env operating_time s4
  let s6 := updateCurrentSensor env operating_time s5
  let s7 := applySensorCalibration s6
  let s8 := addRealisticNoise env s7
  let s9 := enforceSensorBounds s8
  let s10 := storeHistoricalData s9
  let s11 := calculatePerformanceMetrics s10
  let s12 := updateHealthScore s11
  let s13 := updateFailurePredictions s12
  let s14 := trendGate s13
  let s15 := (checkComprehensiveAlarms env.now s14).1
  let s16 := generateMaintenanceRecommendations s15
  handleDataTransmission env.wallClock tr s16

/-! ## Alarm-emission traces

`update_sensors` performs exactly one `alarmTickStep` per tick, with
whatever sensor bank and trend table the earlier steps produced and
with `datetime.now()` as the clock.  A trace of such steps with
arbitrary banks/trend tables therefore covers every behaviour of the
running system's alarm engine. -/

/-- The inputs one alarm evaluation reads. -/
structure AlarmTick where
  now : ℚ
  bank : SensorName → SensorChannel
  trendMap : SensorName → TrendData

/-- Run a sequence of alarm evaluations, threading
`self.last_alarm_time` and concatenating every alarm ever emitted. -/
def runAlarmTicks : List AlarmTick → (AlarmKey → Option ℚ) →
    (AlarmKey → Option ℚ) × List Alarm
  | [], lat => (lat, [])
  | tk :: rest, lat =>
    let r1 := alarmTickStep tk.now tk.bank tk.trendMap lat
    let r2 := runAlarmTicks rest r1.1
    (r2.1, r1.2 ++ r2.2)

/-- The cooldown-separation property between two emitted alarms: if
they share a cooldown key, the later one is at least the key's
cooldown window after the earlier one. -/
def alarmSep (a b : Alarm) : Prop :=
  alarmKeyOf a = alarmKeyOf b →
    cooldownOf (alarmKeyOf a) ≤ b.timestamp - a.timestamp

/-! ## Python float semantics for the NaN/Infinity question

`_enforce_sensor_bounds` computes
`max(min_bound, min(max_bound, value))` with the CPython builtins,
whose two-argument behaviour is `min(a, b) = b if b < a else a` and
`max(a, b) = b if b > a else a`, every comparison involving NaN being
false.  To settle what the clamp does to non-finite values we model
IEEE floats as finite rationals plus NaN and the two infinities. -/

inductive PyFloat
  | finite (q : ℚ)
  | nan
  | inf
  | ninf
deriving DecidableEq, Repr

/-- The `<` comparison on Python floats (NaN incomparable). -/
def pyLt : PyFloat → PyFloat → Bool
  | .finite a, .finite b => a < b
  | .nan, _ => false
  | _, .nan => false
  | .ninf, .ninf => false
  | .ninf, _ => true
  | _, .ninf => false
  | .inf, _ => false
  | .finite _, .inf => true

/-- CPython builtin `min(a, b)`. -/
def pyMin (a b : PyFloat) : PyFloat := if pyLt b a then b else a

/-- CPython builtin `max(a, b)`. -/
def pyMax (a b : PyFloat) : PyFloat := if pyLt a b then b else a

/-- The clamp of `_enforce_sensor_bounds` on one value, at the
float level: `max(min_bound, min(max_bound, value))`.  A total
function — no code path raises. -/
def pyClampBounds (min_bound max_bound v : PyFloat) : PyFloat :=
  pyMax min_bound (pyMin max_bound v)

/-- The state with the transmission bookkeeping field removed: the part
of the state produced by sensor simulation, alarm evaluation, health
scoring and recommendation generation. -/
structure CoreView where
  sensors : SensorName → SensorChannel
  history : SensorName → List ℚ
  alarms : List Alarm
  lastAlarmTime : AlarmKey → Option ℚ
  health_score : ℚ
  trend : SensorName → TrendData
  bearing_wear : ℚ
  belt_degradation : ℚ
  motor_efficiency : ℚ
  lubrication_quality : ℚ
  remaining_useful_life : ℚ
  operating_hours : ℚ
  reading_count : ℕ
  efficiency : ℚ
  uptime : ℚ
  throughput : ℚ
  energy_consumption : ℚ
  maintenance_recommendations : List Recommendation

/-- Forget `last_transmission`. -/
def coreOf (s : SysState) : CoreView where
  sensors := s.sensors
  history := s.history
  alarms := s.alarms
  lastAlarmTime := s.lastAlarmTime
  health_score := s.health_score
  trend := s.trend
  bearing_wear := s.bearing_wear
  belt_degradation := s.belt_degradation
  motor_efficiency := s.motor_efficiency
  lubrication_quality := s.lubrication_quality
  remaining_useful_life := s.remaining_useful_life
  operating_hours := s.operating_hours
  reading_count := s.reading_count
  efficiency := s.efficiency
  uptime := s.uptime
  throughput := s.throughput
  energy_consumption := s.energy_consumption
  maintenance_recommendations := s.maintenance_recommendations

/-! ## Projection lemmas through the pipeline -/

/- Batteries marks the rational-number field operations irreducible;
concrete evaluation of the embedded operations by `decide` needs them
unfolded. -/
attribute [local semireducible] Rat.add Rat.sub Rat.mul Rat.inv Rat.ofScientific

theorem setValue_min (bank : SensorName → SensorChannel) (k : SensorName)
    (v : ℚ) (m : SensorName) : (setValue bank k v m).min = (bank m).min := by
  unfold setValue; split <;> rfl

theorem setValue_max (bank : SensorName → SensorChannel) (k : SensorName)
    (v : ℚ) (m : SensorName) : (setValue bank k v m).max = (bank m).max := by
  unfold setValue; split <;> rfl

theorem trendGate_sensors (s : SysState) :
    (trendGate s).sensors = s.sensors := by
  unfold trendGate performTrendAnalysis; split <;> rfl

theorem handleDataTransmission_coreOf (w : ℚ) (tr : TransmitterOutcome)
    (s : SysState) : coreOf (handleDataTransmission w tr s) = coreOf s := by
  unfold handleDataTransmission
  split
  · cases tr <;> rfl
  · rfl

theorem handleDataTransmission_failing_eq_offline (w : ℚ) (s : SysState) :
    handleDataTransmission w .failing s = handleDataTransmission w .offline s := by
  unfold handleDataTransmission; split <;> rfl

theorem handle_sensors (w : ℚ) (tr : TransmitterOutcome) (s : SysState) :
    (handleDataTransmission w tr s).sensors = s.sensors := by
  unfold handleDataTransmission
  split
  · cases tr <;> rfl
  · rfl

theorem handle_health (w : ℚ) (tr : TransmitterOutcome) (s : SysState) :
    (handleDataTransmission w tr s).health_score = s.health_score := by
  unfold handleDataTransmission
  split
  · cases tr <;> rfl
  · rfl

theorem handle_rul (w : ℚ) (tr : TransmitterOutcome) (s : SysState) :
    (handleDataTransmission w tr s).remaining_useful_life =
      s.remaining_useful_life := by
  unfold handleDataTransmission
  split
  · cases tr <;> rfl
  · rfl

theorem handle_lub (w : ℚ) (tr : TransmitterOutcome) (s : SysState) :
    (handleDataTransmission w tr s).lubrication_quality =
      s.lubrication_quality := by
  unfold handleDataTransmission
  split
  · cases tr <;> rfl
  · rfl

theorem trendGate_health (s : SysState) :
    (trendGate s).health_score = s.health_score := by
  unfold trendGate performTrendAnalysis; split <;> rfl

theorem trendGate_rul (s : SysState) :
    (trendGate s).remaining_useful_life = s.remaining_useful_life := by
  unfold trendGate performTrendAnalysis; split <;> rfl

theorem trendGate_lub (s : SysState) :
    (trendGate s).lubrication_quality = s.lubrication_quality := by
  unfold trendGate performTrendAnalysis; split <;> rfl

theorem genRecs_sensors (s : SysState) :
    (generateMaintenanceRecommendations s).sensors = s.sensors := rfl

theorem genRecs_health (s : SysState) :
    (generateMaintenanceRecommendations s).health_score = s.health_score := rfl

theorem genRecs_rul (s : SysState) :
    (generateMaintenanceRecommendations s).remaining_useful_life =
      s.remaining_useful_life := rfl

theorem genRecs_lub (s : SysState) :
    (generateMaintenanceRecommendations s).lubrication_quality =
      s.lubrication_quality := rfl

theorem checkComp_sensors (now : ℚ) (s : SysState) :
    ((checkComprehensiveAlarms now s).1).sensors = s.sensors := rfl

theorem checkComp_health (now : ℚ) (s : SysState) :
    ((checkComprehensiveAlarms now s).1).health_score = s.health_score := rfl

theorem checkComp_rul (now : ℚ) (s : SysState) :
    ((checkComprehensiveAlarms now s).1).remaining_useful_life =
      s.remaining_useful_life := rfl

theorem checkComp_lub (now : ℚ) (s : SysState) :
    ((checkComprehensiveAlarms now s).1).lubrication_quality =
      s.lubrication_quality := rfl

theorem updFP_sensors (s : SysState) :
    (updateFailurePredictions s).sensors = s.sensors := rfl

theorem updFP_health (s : SysState) :
    (updateFailurePredictions s).health_score = s.health_score := rfl

theorem updHS_sensors (s : SysState) :
    (updateHealthScore s).sensors = s.sensors := rfl

theorem calcPerf_sensors (s : SysState) :
    (calculatePerformanceMetrics s).sensors = s.sensors := rfl

theorem storeHist_sensors (s : SysState) :
    (storeHistoricalData s).sensors = s.sensors := rfl

theorem enforce_min (s : SysState) (n : SensorName) :
    ((enforceSensorBounds s).sensors n).min = (s.sensors n).min := rfl

theorem enforce_max (s : SysState) (n : SensorName) :
    ((enforceSensorBounds s).sensors n).max = (s.sensors n).max := rfl

theorem noise_min (env : Env) (s : SysState) (n : SensorName) :
    ((addRealisticNoise env s).sensors n).min = (s.sensors n).min := rfl

theorem noise_max (env : Env) (s : SysState) (n : SensorName) :
    ((addRealisticNoise env s).sensors n).max = (s.sensors n).max := rfl

theorem calib_min (s : SysState) (n : SensorName) :
    ((applySensorCalibration s).sensors n).min = (s.sensors n).min := rfl

theorem calib_max (s : SysState) (n : SensorName) :
    ((applySensorCalibration s).sensors n).max = (s.sensors n).max := rfl

theorem updCur_min (env : Env) (t : ℚ) (s : SysState) (n : SensorName) :
    ((updateCurrentSensor env t s).sensors n).min = (s.sensors n).min := by
  unfold updateCurrentSensor; exact setValue_min _ _ _ _

theorem updCur_max (env : Env) (t : ℚ) (s : SysState) (n : SensorName) :
    ((updateCurrentSensor env t s).sensors n).max = (s.sensors n).max := by
  unfold updateCurrentSensor; exact setValue_max _ _ _ _

theorem updVib_min (env : Env) (t : ℚ) (s : SysState) (n : SensorName) :
    ((updateVibrationSensor env t s).sensors n).min = (s.sensors n).min := by
  unfold updateVibrationSensor; exact setValue_min _ _ _ _

theorem updVib_max (env : Env) (t : ℚ) (s : SysState) (n : SensorName) :
    ((updateVibrationSensor env t s).sensors n).max = (s.sensors n).max := by
  unfold updateVibrationSensor; exact setValue_max _ _ _ _

theorem updTemp_min (env : Env) (t : ℚ) (s : SysState) (n : SensorName) :
    ((updateTemperatureSensor env t s).sensors n).min = (s.sensors n).min := by
  unfold updateTemperatureSensor; exact setValue_min _ _ _ _

theorem updTemp_max (env : Env) (t : ℚ) (s : SysState) (n : SensorName) :
    ((updateTemperatureSensor env t s).sensors n).max = (s.sensors n).max := by
  unfold updateTemperatureSensor; exact setValue_max _ _ _ _

theorem updLoad_min (env : Env) (mc t : ℚ) (s : SysState) (n : SensorName) :
    ((updateLoadSensor env mc t s).sensors n).min = (s.sensors n).min := by
  unfold updateLoadSensor; exact setValue_min _ _ _ _

theorem updLoad_max (env : Env) (mc t : ℚ) (s : SysState) (n : SensorName) :
    ((updateLoadSensor env mc t s).sensors n).max = (s.sensors n).max := by
  unfold updateLoadSensor; exact setValue_max _ _ _ _

theorem updSpeed_min (env : Env) (bs : ℚ) (s : SysState) (n : SensorName) :
    ((updateSpeedSensor env bs s).sensors n).min = (s.sensors n).min := by
  unfold updateSpeedSensor; exact setValue_min _ _ _ _

theorem updSpeed_max (env : Env) (bs : ℚ) (s : SysState) (n : SensorName) :
    ((updateSpeedSensor env bs s).sensors n).max = (s.sensors n).max := by
  unfold updateSpeedSensor; exact setValue_max _ _ _ _

/-- The sensor bank produced by `update_sensors` is exactly the one
produced by the bound-enforcement step: no later step writes sensors. -/
theorem updateSensors_sensors (env : Env) (tr : TransmitterOutcome)
    (bs mc t : ℚ) (s : SysState) :
    (updateSensors env tr bs mc t s).sensors =
      (enforceSensorBounds (addRealisticNoise env (applySensorCalibration
        (updateCurrentSensor env t (updateVibrationSensor env t
        (updateTemperatureSensor env t (updateLoadSensor env mc t
        (updateSpeedSensor env bs (startTick t s))))))))).sensors := by
  simp only [updateSensors, handle_sensors, genRecs_sensors, checkComp_sensors,
    trendGate_sensors, updFP_sensors, updHS_sensors, calcPerf_sensors,
    storeHist_sensors]

/-- The clamp of `_enforce_sensor_bounds` lands in `[min, max]` whenever
the configured bounds are ordered. -/
theorem enforce_bounds_mem (s : SysState) (n : SensorName)
    (h : (s.sensors n).min ≤ (s.sensors n).max) :
    ((enforceSensorBounds s).sensors n).min ≤
        ((enforceSensorBounds s).sensors n).value ∧
      ((enforceSensorBounds s).sensors n).value ≤
        ((enforceSensorBounds s).sensors n).max := by
  refine ⟨le_max_left _ _, ?_⟩
  exact max_le h (min_le_left _ _)

/-- C1: for every call to `update_sensors` (any drive-speed, load-proxy
and operating-time inputs, any environment and transmitter outcome) and
every sensor channel whose configuration satisfies `min ≤ max` (true of
all built-in configurations), the channel's value after the call lies
within the channel's `[min, max]` bounds. -/
theorem update_sensors_value_within_bounds (env : Env)
    (tr : TransmitterOutcome) (bs mc t : ℚ) (s : SysState) (n : SensorName)
    (h : (s.sensors n).min ≤ (s.sensors n).max) :
    ((updateSensors env tr bs mc t s).sensors n).min ≤
        ((updateSensors env tr bs mc t s).sensors n).value ∧
      ((updateSensors env tr bs mc t s).sensors n).value ≤
        ((updateSensors env tr bs mc t s).sensors n).max := by
  simp only [updateSensors_sensors]
  apply enforce_bounds_mem
  simp only [noise_min, noise_max, calib_min, calib_max, updCur_min, updCur_max,
    updVib_min, updVib_max, updTemp_min, updTemp_max, updLoad_min, updLoad_max,
    updSpeed_min, updSpeed_max]
  exact h

/-- Witness for C1: the temperature channel of a freshly constructed
system, updated once with zeroed environment inputs. -/
theorem update_sensors_value_within_bounds_witness :
    (initState.sensors .temperature_c).min ≤
        (initState.sensors .temperature_c).max ∧
      (((updateSensors
          { pi := 0, sin := fun _ => 0, cos := fun _ => 0, exp := fun _ => 0,
            sinWallTwice := 0, uniformNoise := 0, gauss := fun _ => 0,
            now := 0, wallClock := 0 } .offline 1 2 3 initState).sensors
            .temperature_c).min ≤
        ((updateSensors
          { pi := 0, sin := fun _ => 0, cos := fun _ => 0, exp := fun _ => 0,
            sinWallTwice := 0, uniformNoise := 0, gauss := fun _ => 0,
            now := 0, wallClock := 0 } .offline 1 2 3 initState).sensors
            .temperature_c).value ∧
        ((updateSensors
          { pi := 0, sin := fun _ => 0, cos := fun _ => 0, exp := fun _ => 0,
            sinWallTwice := 0, uniformNoise := 0, gauss := fun _ => 0,
            now := 0, wallClock := 0 } .offline 1 2 3 initState).sensors
            .temperature_c).value ≤
        ((updateSensors
          { pi := 0, sin := fun _ => 0, cos := fun _ => 0, exp := fun _ => 0,
            sinWallTwice := 0, uniformNoise := 0, gauss := fun _ => 0,
            now := 0, wallClock := 0 } .offline 1 2 3 initState).sensors
            .temperature_c).max) :=
  ⟨by decide, update_sensors_value_within_bounds _ _ _ _ _ _ _ (by decide)⟩

/-- The health score assigned by `_update_health_score` is clamped to
`[0, 100]`. -/
theorem updateHealthScore_mem (s : SysState) :
    0 ≤ (updateHealthScore s).health_score ∧
      (updateHealthScore s).health_score ≤ 100 := by
  constructor
  · exact le_max_left _ _
  · exact max_le (by norm_num) (min_le_left _ _)

/-- `(1 − worst) × 100 ≤ 100` because the motor-efficiency indicator is
floored at 0, so the worst indicator is nonnegative. -/
theorem one_sub_worst_mul_le (b c m l : ℚ) :
    (1 - max (max (max b c) (max 0 m)) l) * 100 ≤ 100 := by
  have h : (0 : ℚ) ≤ max (max (max b c) (max 0 m)) l :=
    le_trans (le_max_left 0 m)
      (le_trans (le_max_right (max b c) (max 0 m)) (le_max_left _ l))
  nlinarith

/-- The remaining useful life assigned by `_update_failure_predictions`
lies in `[0, 100]` for every state. -/
theorem updateFailurePredictions_rul_mem (s : SysState) :
    0 ≤ (updateFailurePredictions s).remaining_useful_life ∧
      (updateFailurePredictions s).remaining_useful_life ≤ 100 := by
  refine ⟨le_max_left _ _, ?_⟩
  simp only [updateFailurePredictions]
  exact max_le (by norm_num) (one_sub_worst_mul_le _ _ _ _)

/-- C4: after every `update_sensors` call — for all sensor values,
operating hours, alarm-log contents, environments and transmitter
outcomes — the health score lies in `[0, 100]` and the remaining
useful life lies in `[0, 100]`. -/
theorem health_score_and_rul_bounded (env : Env) (tr : TransmitterOutcome)
    (bs mc t : ℚ) (s : SysState) :
    (0 ≤ (updateSensors env tr bs mc t s).health_score ∧
        (updateSensors env tr bs mc t s).health_score ≤ 100) ∧
      (0 ≤ (updateSensors env tr bs mc t s).remaining_useful_life ∧
        (updateSensors env tr bs mc t s).remaining_useful_life ≤ 100) := by
  constructor
  · simp only [updateSensors, handle_health, genRecs_health, checkComp_health,
      trendGate_health, updFP_health]
    exact updateHealthScore_mem _
  · simp only [updateSensors, handle_rul, genRecs_rul, checkComp_rul,
      trendGate_rul]
    exact updateFailurePredictions_rul_mem _

/-- The remaining useful life computed by `_update_failure_predictions`
is exactly 0 whenever the (never-updated) lubrication-quality indicator
is 1. -/
theorem updateFailurePredictions_rul_zero (s : SysState)
    (h : s.lubrication_quality = 1) :
    (updateFailurePredictions s).remaining_useful_life = 0 := by
  simp only [updateFailurePredictions, h]
  have h1 : (1 : ℚ) ≤ max (max (max
      (min 1 (max 0 (((s.sensors .vibration_ms2).value - 5) / 15) +
        (s.trend .vibration_ms2).slope * 0.1))
      (min 1 (|(s.sensors .speed_rpm).value - 50| / 50 +
        s.operating_hours / 5000)))
      (max 0 (1 - |(s.sensors .current_a).value - 25| / 25 -
        (s.trend .current_a).slope * 0.05))) 1 := le_max_right _ 1
  have h2 : (1 - max (max (max
      (min 1 (max 0 (((s.sensors .vibration_ms2).value - 5) / 15) +
        (s.trend .vibration_ms2).slope * 0.1))
      (min 1 (|(s.sensors .speed_rpm).value - 50| / 50 +
        s.operating_hours / 5000)))
      (max 0 (1 - |(s.sensors .current_a).value - 25| / 25 -
        (s.trend .current_a).slope * 0.05))) 1) * 100 ≤ 0 := by nlinarith
  exact max_eq_left h2

/-- C10: for every call of `update_sensors` on a state whose
lubrication-quality indicator is 1 — as it is from construction on,
since `__init__` sets `lubrication_quality = 1.0` and no code in the
repository ever writes it — the remaining useful life computed by the
failure-prediction step is exactly 0, and the lubrication-quality
indicator is still 1 afterwards. -/
theorem rul_always_zero (env : Env) (tr : TransmitterOutcome)
    (bs mc t : ℚ) (s : SysState) (h : s.lubrication_quality = 1) :
    (updateSensors env tr bs mc t s).remaining_useful_life = 0 ∧
      (updateSensors env tr bs mc t s).lubrication_quality = 1 := by
  constructor
  · simp only [updateSensors, handle_rul, genRecs_rul, checkComp_rul,
      trendGate_rul]
    exact updateFailurePredictions_rul_zero _ h
  · simp only [updateSensors, handle_lub, genRecs_lub, checkComp_lub,
      trendGate_lub]
    exact h

/-- Witness for C10: the freshly constructed state (lubrication quality
1.0 from `__init__`) yields remaining useful life exactly 0 after one
update. -/
theorem rul_always_zero_witness :
    initState.lubrication_quality = 1 ∧
      ((updateSensors
          { pi := 0, sin := fun _ => 0, cos := fun _ => 0, exp := fun _ => 0,
            sinWallTwice := 0, uniformNoise := 0, gauss := fun _ => 0,
            now := 0, wallClock := 0 } .offline 1 2 3
          initState).remaining_useful_life = 0 ∧
        (updateSensors
          { pi := 0, sin := fun _ => 0, cos := fun _ => 0, exp := fun _ => 0,
            sinWallTwice := 0, uniformNoise := 0, gauss := fun _ => 0,
            now := 0, wallClock := 0 } .offline 1 2 3
          initState).lubrication_quality = 1) :=
  ⟨by decide, rul_always_zero _ _ _ _ _ _ (by decide)⟩

/-- C9: transmitter failures are caught inside
`_handle_data_transmission` and never propagate out of the tick update
(in the embedding: `update_sensors` with a raising transmitter returns
the very same state as in offline mode), and the transmitter outcome
has no effect whatsoever on the sensor-simulation, alarm, health,
prediction and recommendation state — a working transmitter changes
only the `last_transmission` bookkeeping field. -/
theorem transmitter_failure_isolated (env : Env) (bs mc t : ℚ) (s : SysState) :
    updateSensors env .failing bs mc t s =
        updateSensors env .offline bs mc t s ∧
      coreOf (updateSensors env .ok bs mc t s) =
        coreOf (updateSensors env .offline bs mc t s) := by
  constructor
  · simp only [updateSensors]
    exact handleDataTransmission_failing_eq_offline _ _
  · simp only [updateSensors, handleDataTransmission_coreOf]

theorem handle_bearing (w : ℚ) (tr : TransmitterOutcome) (s : SysState) :
    (handleDataTransmission w tr s).bearing_wear = s.bearing_wear := by
  unfold handleDataTransmission
  split
  · cases tr <;> rfl
  · rfl

theorem handle_belt (w : ℚ) (tr : TransmitterOutcome) (s : SysState) :
    (handleDataTransmission w tr s).belt_degradation = s.belt_degradation := by
  unfold handleDataTransmission
  split
  · cases tr <;> rfl
  · rfl

theorem handle_motor (w : ℚ) (tr : TransmitterOutcome) (s : SysState) :
    (handleDataTransmission w tr s).motor_efficiency = s.motor_efficiency := by
  unfold handleDataTransmission
  split
  · cases tr <;> rfl
  · rfl

theorem trendGate_bearing (s : SysState) :
    (trendGate s).bearing_wear = s.bearing_wear := by
  unfold trendGate performTrendAnalysis; split <;> rfl

theorem trendGate_belt (s : SysState) :
    (trendGate s).belt_degradation = s.belt_degradation := by
  unfold trendGate performTrendAnalysis; split <;> rfl

theorem trendGate_motor (s : SysState) :
    (trendGate s).motor_efficiency = s.motor_efficiency := by
  unfold trendGate performTrendAnalysis; split <;> rfl

theorem genRecs_bearing (s : SysState) :
    (generateMaintenanceRecommendations s).bearing_wear = s.bearing_wear := rfl

theorem genRecs_belt (s : SysState) :
    (generateMaintenanceRecommendations s).belt_degradation =
      s.belt_degradation := rfl

theorem genRecs_motor (s : SysState) :
    (generateMaintenanceRecommendations s).motor_efficiency =
      s.motor_efficiency := rfl

theorem checkComp_bearing (now : ℚ) (s : SysState) :
    ((checkComprehensiveAlarms now s).1).bearing_wear = s.bearing_wear := rfl

theorem checkComp_belt (now : ℚ) (s : SysState) :
    ((checkComprehensiveAlarms now s).1).belt_degradation =
      s.belt_degradation := rfl

theorem checkComp_motor (now : ℚ) (s : SysState) :
    ((checkComprehensiveAlarms now s).1).motor_efficiency =
      s.motor_efficiency := rfl

/-- The four failure indicators after `_update_failure_predictions` lie
in `[0, 1]` provided the vibration and current trend slopes are
nonnegative, the operating hours are nonnegative, and the (never
updated) lubrication indicator was in `[0, 1]`. -/
theorem updFP_indicators_mem (s : SysState)
    (hv : 0 ≤ (s.trend .vibration_ms2).slope)
    (hc : 0 ≤ (s.trend .current_a).slope)
    (hop : 0 ≤ s.operating_hours)
    (hl0 : 0 ≤ s.lubrication_quality) (hl1 : s.lubrication_quality ≤ 1) :
    (0 ≤ (updateFailurePredictions s).bearing_wear ∧
        (updateFailurePredictions s).bearing_wear ≤ 1) ∧
      (0 ≤ (updateFailurePredictions s).belt_degradation ∧
        (updateFailurePredictions s).belt_degradation ≤ 1) ∧
      (0 ≤ (updateFailurePredictions s).motor_efficiency ∧
        (updateFailurePredictions s).motor_efficiency ≤ 1) ∧
      (0 ≤ (updateFailurePredictions s).lubrication_quality ∧
        (updateFailurePredictions s).lubrication_quality ≤ 1) := by
  simp only [updateFailurePredictions]
  refine ⟨⟨?_, min_le_left _ _⟩, ⟨?_, min_le_left _ _⟩,
    ⟨le_max_left _ _, ?_⟩, hl0, hl1⟩
  · exact le_min (by norm_num)
      (add_nonneg (le_max_left 0 _) (mul_nonneg hv (by norm_num)))
  · exact le_min (by norm_num)
      (add_nonneg (div_nonneg (abs_nonneg _) (by norm_num))
        (div_nonneg hop (by norm_num)))
  · refine max_le (by norm_num) ?_
    have hd : (0 : ℚ) ≤ |(s.sensors .current_a).value - 25| / 25 :=
      div_nonneg (abs_nonneg _) (by norm_num)
    have hs5 : (0 : ℚ) ≤ (s.trend .current_a).slope * 0.05 :=
      mul_nonneg hc (by norm_num)
    linarith

/-- C3 (amended): the claim as stated is false — `bearing_wear` is only
capped above and `motor_efficiency` only floored below, so negative
trend slopes push them outside `[0, 1]`.  With NONNEGATIVE vibration
and current trend slopes, nonnegative operating time and a
lubrication-quality value in `[0, 1]`, all four failure indicators lie
in `[0, 1]` after every update. -/
theorem failure_indicators_in_range_amended (env : Env)
    (tr : TransmitterOutcome) (bs mc t : ℚ) (s : SysState)
    (hv : 0 ≤ (s.trend .vibration_ms2).slope)
    (hc : 0 ≤ (s.trend .current_a).slope)
    (ht : 0 ≤ t)
    (hl0 : 0 ≤ s.lubrication_quality) (hl1 : s.lubrication_quality ≤ 1) :
    (0 ≤ (updateSensors env tr bs mc t s).bearing_wear ∧
        (updateSensors env tr bs mc t s).bearing_wear ≤ 1) ∧
      (0 ≤ (updateSensors env tr bs mc t s).belt_degradation ∧
        (updateSensors env tr bs mc t s).belt_degradation ≤ 1) ∧
      (0 ≤ (updateSensors env tr bs mc t s).motor_efficiency ∧
        (updateSensors env tr bs mc t s).motor_efficiency ≤ 1) ∧
      (0 ≤ (updateSensors env tr bs mc t s).lubrication_quality ∧
        (updateSensors env tr bs mc t s).lubrication_quality ≤ 1) := by
  simp only [updateSensors, handle_bearing, handle_belt, handle_motor,
    handle_lub, genRecs_bearing, genRecs_belt, genRecs_motor, genRecs_lub,
    checkComp_bearing, checkComp_belt, checkComp_motor, checkComp_lub,
    trendGate_bearing, trendGate_belt, trendGate_motor, trendGate_lub]
  exact updFP_indicators_mem _ hv hc (div_nonneg ht (by norm_num)) hl0 hl1

/-- Witness for the amended C3: a fresh system (zero trend slopes,
lubrication quality 1) updated once at `operating_time = 3`. -/
theorem failure_indicators_in_range_amended_witness :
    (0 ≤ (initState.trend .vibration_ms2).slope ∧
        0 ≤ (initState.trend .current_a).slope ∧ (0 : ℚ) ≤ 3 ∧
        0 ≤ initState.lubrication_quality ∧
        initState.lubrication_quality ≤ 1) ∧
      (0 ≤ (updateSensors
          { pi := 0, sin := fun _ => 0, cos := fun _ => 0, exp := fun _ => 0,
            sinWallTwice := 0, uniformNoise := 0, gauss := fun _ => 0,
            now := 0, wallClock := 0 } .offline 1 2 3
          initState).bearing_wear ∧
        (updateSensors
          { pi := 0, sin := fun _ => 0, cos := fun _ => 0, exp := fun _ => 0,
            sinWallTwice := 0, uniformNoise := 0, gauss := fun _ => 0,
            now := 0, wallClock := 0 } .offline 1 2 3
          initState).bearing_wear ≤ 1) :=
  ⟨⟨by decide, by decide, by decide, by decide, by decide⟩,
    (failure_indicators_in_range_amended _ _ _ _ _ _ (by decide) (by decide)
      (by decide) (by decide) (by decide)).1⟩

/-- The state used to refute C3: vibration trend slope −1 and current
trend slope −100 (both reachable, since OLS slopes over a decreasing
history window are negative), together with noise samples large and
negative enough that the vibration and current channels clamp to their
minimum bound 0. -/
def c3State : SysState :=
  { initState with
    trend := fun n =>
      if n = .vibration_ms2 then { slope := -1, r_squared := 1 }
      else if n = .current_a then { slope := -100, r_squared := 1 }
      else { slope := 0, r_squared := 0 } }

/-- The environment used to refute C3: zeroed transcendentals and large
negative noise on the vibration and current channels. -/
def c3Env : Env :=
  { pi := 0, sin := fun _ => 0, cos := fun _ => 0, exp := fun _ => 0,
    sinWallTwice := 0, uniformNoise := 0,
    gauss := fun n =>
      if n = .vibration_ms2 ∨ n = .current_a then -1000 else 0,
    now := 0, wallClock := 0 }

set_option maxRecDepth 4000 in
/-- Counterexample to C3 as stated: after a full `update_sensors` call
with negative vibration and current trend slopes, `bearing_wear` is
−1/10 (below 0) and `motor_efficiency` is 5 (above 1) — the indicators
are NOT all within `[0, 1]`. -/
theorem failure_indicators_out_of_range_cex :
    (updateSensors c3Env .offline 0 0 0 c3State).bearing_wear < 0 ∧
      1 < (updateSensors c3Env .offline 0 0 0 c3State).motor_efficiency := by
  decide

/-- C6 (amended): at the `update_sensors` level trend analysis runs
only once STRICTLY MORE than 10 history points exist (the guard is
`len > 10`, so at exactly 10 points the trend is still the neutral
zero trend); the analyzer itself (`_perform_trend_analysis`) computes a
channel once it has at least 10 points; and for a channel with fewer
than 10 points it leaves the (initially zero) trend unchanged without
raising. -/
theorem trend_analysis_threshold_amended :
    (∀ s : SysState, (s.history .speed_rpm).length ≤ 10 → trendGate s = s) ∧
      (∀ s : SysState, 10 < (s.history .speed_rpm).length →
        trendGate s = performTrendAnalysis s) ∧
      (∀ (s : SysState) (n : SensorName), (s.history n).length < 10 →
        (performTrendAnalysis s).trend n = s.trend n) := by
  refine ⟨?_, ?_, ?_⟩
  · intro s h
    unfold trendGate
    rw [if_neg (by omega)]
  · intro s h
    unfold trendGate
    rw [if_pos h]
  · intro s n h
    show analyzeTrend (s.history n) (s.trend n) = s.trend n
    unfold analyzeTrend
    rw [if_neg (by omega)]

/-- Witness for the amended C6: a fresh system has 0 history points,
and its trend step is the identity. -/
theorem trend_analysis_threshold_amended_witness :
    (initState.history .speed_rpm).length ≤ 10 ∧
      trendGate initState = initState :=
  ⟨by decide, trend_analysis_threshold_amended.1 initState (by decide)⟩

/-- The state used to refute C6: every channel holds the 10-point
history `0, 1, …, 9`, on which the regression yields slope 1. -/
def c6State : SysState :=
  { initState with history := fun _ => [0, 1, 2, 3, 4, 5, 6, 7, 8, 9] }

/-- Counterexample to C6 as stated: with exactly 10 history points —
"at least 10 points exist" — the update-level trend step leaves the
neutral zero trend untouched, although the analyzer, had it been
invoked, computes the non-neutral slope 1 (the guard at the call site
is `len > 10`, not `≥ 10`). -/
theorem trend_not_computed_at_ten_points_cex :
    (c6State.history .speed_rpm).length = 10 ∧
      (trendGate c6State).trend .speed_rpm = { slope := 0, r_squared := 0 } ∧
      (performTrendAnalysis c6State).trend .speed_rpm =
        { slope := 1, r_squared := 1 } := by
  refine ⟨by decide, ?_, by decide⟩
  have h : trendGate c6State = c6State := by
    unfold trendGate
    rw [if_neg (by decide)]
  rw [h]
  rfl

/-- C7 (amended): the claim as stated is false — nothing in
`update_sensors` detects NaN or Infinity and nothing raises (the body
is wrapped in a catch-all `except` that only logs).  Instead the
bounds clamp of `_enforce_sensor_bounds` MASKS non-finite values:
under CPython's `min`/`max` comparison semantics a NaN value is
replaced by the channel's max bound, `+inf` is clamped to the max
bound and `-inf` to the min bound, always yielding a finite in-range
number. -/
theorem nonfinite_masked_by_clamp_amended (mn mx : ℚ) (h : mn ≤ mx) :
    pyClampBounds (.finite mn) (.finite mx) .nan = .finite mx ∧
      pyClampBounds (.finite mn) (.finite mx) .inf = .finite mx ∧
      pyClampBounds (.finite mn) (.finite mx) .ninf = .finite mn := by
  have hmax : pyMax (.finite mn) (.finite mx) = .finite mx := by
    by_cases hc : mn < mx
    · simp [pyMax, pyLt, hc]
    · have heq : mn = mx := le_antisymm h (not_lt.mp hc)
      simp [pyMax, pyLt, heq]
  refine ⟨?_, ?_, ?_⟩
  · show pyMax (.finite mn) (pyMin (.finite mx) .nan) = .finite mx
    have h1 : pyMin (.finite mx) .nan = .finite mx := rfl
    rw [h1, hmax]
  · show pyMax (.finite mn) (pyMin (.finite mx) .inf) = .finite mx
    have h1 : pyMin (.finite mx) .inf = .finite mx := rfl
    rw [h1, hmax]
  · show pyMax (.finite mn) (pyMin (.finite mx) .ninf) = .finite mn
    have h1 : pyMin (.finite mx) .ninf = .ninf := rfl
    rw [h1]
    rfl

/-- Witness for the amended C7, at the temperature channel's bounds
`[20, 80]`. -/
theorem nonfinite_masked_by_clamp_amended_witness :
    (20 : ℚ) ≤ 80 ∧
      pyClampBounds (.finite 20) (.finite 80) .nan = .finite 80 :=
  ⟨by decide, (nonfinite_masked_by_clamp_amended 20 80 (by decide)).1⟩

/-- Counterexample to C7 as stated: a NaN produced by the update
computation does not raise — the clamp
`max(min_bound, min(max_bound, value))` of `_enforce_sensor_bounds`
evaluates to the finite max bound (here 80, for the temperature
channel's `[20, 80]`), i.e. the NaN is silently masked into `[min,
max]` rather than treated as fatal. -/
theorem nan_not_raised_but_clamped_cex :
    pyClampBounds (.finite 20) (.finite 80) .nan = .finite 80 ∧
      pyClampBounds (.finite 20) (.finite 80) .inf = .finite 80 ∧
      pyClampBounds (.finite 20) (.finite 80) .ninf = .finite 20 := by
  decide

/-- C8 (amended): the claim as stated is false — no validation exists
anywhere.  `set_thresholds` and the backend configuration loader store
whatever values they are given, verbatim (round-trip), leaving other
channels untouched, even when the stored values violate
`alarm_threshold < critical_threshold < max`; nothing fails fast.  The
hard-coded `__init__` configuration itself does satisfy the ordering
invariant `min < alarm_threshold < critical_threshold < max`. -/
theorem config_accepted_without_validation_amended :
    (∀ (bank : SensorName → SensorChannel) (n : SensorName) (a c : ℚ),
        ((setThresholds bank n (some a) (some c)) n).alarm_threshold = a ∧
        ((setThresholds bank n (some a) (some c)) n).critical_threshold = c ∧
        ∀ m, m ≠ n → setThresholds bank n (some a) (some c) m = bank m) ∧
      (∀ n : SensorName,
        (initSensors n).min < (initSensors n).alarm_threshold ∧
        (initSensors n).alarm_threshold < (initSensors n).critical_threshold ∧
        (initSensors n).critical_threshold < (initSensors n).max) := by
  constructor
  · intro bank n a c
    refine ⟨?_, ?_, ?_⟩
    · simp [setThresholds]
    · simp [setThresholds]
    · intro m hm
      simp [setThresholds, hm]
  · intro n
    cases n <;> exact ⟨by decide, by decide, by decide⟩

/-- Witness for the amended C8: a round-trip through `set_thresholds`
on the speed channel, and the untouched load channel. -/
theorem config_accepted_without_validation_amended_witness :
    ((setThresholds initSensors .speed_rpm (some 91) (some 96))
        .speed_rpm).alarm_threshold = 91 ∧
      (SensorName.load_kg ≠ SensorName.speed_rpm ∧
        setThresholds initSensors .speed_rpm (some 91) (some 96) .load_kg =
          initSensors .load_kg) :=
  ⟨(config_accepted_without_validation_amended.1 initSensors .speed_rpm 91 96).1,
    by decide,
    (config_accepted_without_validation_amended.1 initSensors .speed_rpm
      91 96).2.2 .load_kg (by decide)⟩

/-- Counterexample to C8 as stated: `set_thresholds` accepts
`alarm_threshold = 200` (≥ the channel's max bound 100) together with
`critical_threshold = 50` (inverting the required ordering) and simply
stores them; the backend loader likewise stores `threshold_value = 200`
with `max_value = 100`.  No error is signalled anywhere. -/
theorem malformed_config_accepted_cex :
    ((setThresholds initSensors .speed_rpm (some 200) (some 50))
        .speed_rpm).alarm_threshold = 200 ∧
      ((setThresholds initSensors .speed_rpm (some 200) (some 50))
        .speed_rpm).critical_threshold = 50 ∧
      ((setThresholds initSensors .speed_rpm (some 200) (some 50))
        .speed_rpm).max = 100 ∧
      ((loadSensorConfig initSensors
          [{ stype := .speed_rpm, threshold_value := some 200,
             max_value := some 100 }]) .speed_rpm).alarm_threshold = 200 ∧
      ((loadSensorConfig initSensors
          [{ stype := .speed_rpm, threshold_value := some 200,
             max_value := some 100 }]) .speed_rpm).max = 100 := by
  refine ⟨?_, ?_, ?_, ?_, ?_⟩ <;> decide

/-! ## C5: severity classification and the threshold scenario -/

/-- The default bank with the speed channel (thresholds 90/95, matching
the scenario's `threshold=90, critical=95`) forced to a given value. -/
def c5Bank (v : ℚ) : SensorName → SensorChannel :=
  setValue initSensors .speed_rpm v

/-- The neutral trend table (fresh system: slope 0, fit 0). -/
def zeroTrend : SensorName → TrendData := fun _ => { slope := 0, r_squared := 0 }

/-- The scenario trace of C5: value 92 at t = 0, 96 at t = 5, 93 at
t = 10, with `alarm_cooldown = 30`. -/
def c5Ticks : List AlarmTick :=
  [{ now := 0, bank := c5Bank 92, trendMap := zeroTrend },
   { now := 5, bank := c5Bank 96, trendMap := zeroTrend },
   { now := 10, bank := c5Bank 93, trendMap := zeroTrend }]

/-- C5: (a) the direct alarm check on a channel with no recent alarms
emits exactly one CRITICAL alarm with priority 1 when the value exceeds
the critical threshold, else exactly one HIGH alarm with priority 2
when it exceeds the alarm threshold, else no direct alarm; and (b) in
the scenario (thresholds 90/95, cooldown 30 s; values 92 at t=0, 96 at
t=5, 93 at t=10) the engine emits exactly one HIGH alarm, then exactly
one CRITICAL alarm (the CRITICAL severity has its own cooldown key, so
the recent HIGH alarm does not suppress it), and then nothing (the
second HIGH is within its key's 30 s cooldown). -/
theorem alarm_severity_classification_and_scenario :
    (∀ (bank : SensorName → SensorChannel) (lat : AlarmKey → Option ℚ)
        (now : ℚ) (n : SensorName),
      lat (.direct n .CRITICAL) = none → lat (.direct n .HIGH) = none →
      (bank n).alarm_threshold ≤ (bank n).critical_threshold →
      (((bank n).critical_threshold < (bank n).value →
          (checkDirectAlarms bank now [n] lat).2 =
            [{ timestamp := now, sensor := n, severity := .CRITICAL,
               priority := 1, value := (bank n).value,
               threshold := (bank n).critical_threshold }]) ∧
        ((bank n).value ≤ (bank n).critical_threshold →
          (bank n).alarm_threshold < (bank n).value →
          (checkDirectAlarms bank now [n] lat).2 =
            [{ timestamp := now, sensor := n, severity := .HIGH,
               priority := 2, value := (bank n).value,
               threshold := (bank n).alarm_threshold }]) ∧
        ((bank n).value ≤ (bank n).alarm_threshold →
          (checkDirectAlarms bank now [n] lat).2 = []))) ∧
      (runAlarmTicks c5Ticks (fun _ => none)).2 =
        [{ timestamp := 0, sensor := .speed_rpm, severity := .HIGH,
           priority := 2, value := 92, threshold := 90 },
         { timestamp := 5, sensor := .speed_rpm, severity := .CRITICAL,
           priority := 1, value := 96, threshold := 95 }] := by
  constructor
  · intro bank lat now n hC hH hord
    refine ⟨?_, ?_, ?_⟩
    · intro h1
      have hcls : classifySeverity (bank n) = some (.CRITICAL, 1) := by
        unfold classifySeverity
        rw [if_pos h1]
      have hb : directBlocked lat (.direct n .CRITICAL) now = false := by
        unfold directBlocked
        rw [hC]
      simp only [checkDirectAlarms, hcls, hb, Bool.false_eq_true, if_false]
      rfl
    · intro h1 h2
      have hcls : classifySeverity (bank n) = some (.HIGH, 2) := by
        unfold classifySeverity
        rw [if_neg (not_lt.mpr h1), if_pos h2]
      have hb : directBlocked lat (.direct n .HIGH) now = false := by
        unfold directBlocked
        rw [hH]
      simp only [checkDirectAlarms, hcls, hb, Bool.false_eq_true, if_false]
      rfl
    · intro h1
      have hcls : classifySeverity (bank n) = none := by
        unfold classifySeverity
        rw [if_neg (not_lt.mpr (le_trans h1 hord)), if_neg (not_lt.mpr h1)]
      simp only [checkDirectAlarms, hcls]
  · decide

/-- Witness for C5: the classification part applied to the speed
channel at value 96 (above the critical threshold 95) with an empty
cooldown table. -/
theorem alarm_severity_classification_and_scenario_witness :
    ((fun _ => (none : Option ℚ)) (AlarmKey.direct .speed_rpm .CRITICAL) =
        none ∧
      (fun _ => (none : Option ℚ)) (AlarmKey.direct .speed_rpm .HIGH) = none ∧
      (c5Bank 96 .speed_rpm).alarm_threshold ≤
        (c5Bank 96 .speed_rpm).critical_threshold ∧
      (c5Bank 96 .speed_rpm).critical_threshold <
        (c5Bank 96 .speed_rpm).value) ∧
      (checkDirectAlarms (c5Bank 96) 0 [.speed_rpm] (fun _ => none)).2 =
        [{ timestamp := 0, sensor := .speed_rpm, severity := .CRITICAL,
           priority := 1, value := 96, threshold := 95 }] :=
  ⟨⟨rfl, rfl, by decide, by decide⟩,
    (alarm_severity_classification_and_scenario.1 (c5Bank 96) (fun _ => none)
      0 .speed_rpm rfl rfl (by decide)).1 (by decide)⟩

/-! ## C2: cooldown separation of emitted alarms -/

theorem classify_sev {c : SensorChannel} {sev : Severity} {p : ℕ}
    (h : classifySeverity c = some (sev, p)) :
    sev = .CRITICAL ∨ sev = .HIGH := by
  unfold classifySeverity at h
  split at h
  · simp only [Option.some.injEq, Prod.mk.injEq] at h
    exact Or.inl h.1.symm
  · split at h
    · simp only [Option.some.injEq, Prod.mk.injEq] at h
      exact Or.inr h.1.symm
    · exact absurd h (by simp)

/-- What one pass of the direct threshold-alarm loop guarantees, for
any iteration list without repeated sensors: all emitted alarms are
stamped `now`, carry a direct cooldown key for a listed sensor, passed
the 30-second cooldown test against the incoming table, have pairwise
distinct sensors, and are recorded in the outgoing table at `now`; the
table is altered only at direct keys of listed sensors, and only to
`now`. -/
theorem checkDirectAlarms_spec (bank : SensorName → SensorChannel) (now : ℚ) :
    ∀ (l : List SensorName) (lat : AlarmKey → Option ℚ), l.Nodup →
    (∀ a ∈ (checkDirectAlarms bank now l lat).2,
        a.timestamp = now ∧ a.sensor ∈ l ∧
          alarmKeyOf a = .direct a.sensor a.severity) ∧
      (∀ k, (checkDirectAlarms bank now l lat).1 k = lat k ∨
        ((∃ n ∈ l, ∃ sev, k = AlarmKey.direct n sev) ∧
          (checkDirectAlarms bank now l lat).1 k = some now)) ∧
      (∀ a ∈ (checkDirectAlarms bank now l lat).2, ∀ t,
        lat (alarmKeyOf a) = some t → alarmCooldown ≤ now - t) ∧
      (checkDirectAlarms bank now l lat).2.Pairwise
        (fun a b => a.sensor ≠ b.sensor) ∧
      (∀ a ∈ (checkDirectAlarms bank now l lat).2,
        (checkDirectAlarms bank now l lat).1 (alarmKeyOf a) = some now) := by
  intro l
  induction l with
  | nil =>
    intro lat _
    refine ⟨?_, fun k => Or.inl rfl, ?_, List.Pairwise.nil, ?_⟩ <;>
      simp [checkDirectAlarms]
  | cons n rest ih =>
    intro lat hnd
    have hn : n ∉ rest := (List.nodup_cons.mp hnd).1
    have hrest : rest.Nodup := (List.nodup_cons.mp hnd).2
    rcases hcl : classifySeverity (bank n) with _ | ⟨sev, prio⟩
    · have hfold : checkDirectAlarms bank now (n :: rest) lat =
          checkDirectAlarms bank now rest lat := by
        simp only [checkDirectAlarms, hcl]
      rw [hfold]
      obtain ⟨i1, i2, i3, i4, i5⟩ := ih lat hrest
      refine ⟨?_, ?_, i3, i4, i5⟩
      · intro a ha
        exact ⟨(i1 a ha).1, List.mem_cons_of_mem _ (i1 a ha).2.1,
          (i1 a ha).2.2⟩
      · intro k
        rcases i2 k with h | ⟨⟨m, hm, hex⟩, he⟩
        · exact Or.inl h
        · exact Or.inr ⟨⟨m, List.mem_cons_of_mem _ hm, hex⟩, he⟩
    · cases hb : directBlocked lat (AlarmKey.direct n sev) now with
      | true =>
        have hfold : checkDirectAlarms bank now (n :: rest) lat =
            checkDirectAlarms bank now rest lat := by
          simp only [checkDirectAlarms, hcl, hb, if_true]
        rw [hfold]
        obtain ⟨i1, i2, i3, i4, i5⟩ := ih lat hrest
        refine ⟨?_, ?_, i3, i4, i5⟩
        · intro a ha
          exact ⟨(i1 a ha).1, List.mem_cons_of_mem _ (i1 a ha).2.1,
            (i1 a ha).2.2⟩
        · intro k
          rcases i2 k with h | ⟨⟨m, hm, hex⟩, he⟩
          · exact Or.inl h
          · exact Or.inr ⟨⟨m, List.mem_cons_of_mem _ hm, hex⟩, he⟩
      | false =>
        have hfold : checkDirectAlarms bank now (n :: rest) lat =
            ((checkDirectAlarms bank now rest
                (fun k' => if k' = AlarmKey.direct n sev
                  then some now else lat k')).1,
              { timestamp := now, sensor := n, severity := sev,
                priority := prio, value := (bank n).value,
                threshold := if sev = Severity.CRITICAL
                  then (bank n).critical_threshold
                  else (bank n).alarm_threshold } ::
              (checkDirectAlarms bank now rest
                (fun k' => if k' = AlarmKey.direct n sev
                  then some now else lat k')).2) := by
          simp only [checkDirectAlarms, hcl, hb, Bool.false_eq_true, if_false]
        rw [hfold]
        set latU := fun k' => if k' = AlarmKey.direct n sev
          then some now else lat k' with hlatU
        set a0 : Alarm :=
          { timestamp := now, sensor := n, severity := sev,
            priority := prio, value := (bank n).value,
            threshold := if sev = Severity.CRITICAL
              then (bank n).critical_threshold
              else (bank n).alarm_threshold } with ha0
        obtain ⟨i1, i2, i3, i4, i5⟩ := ih latU hrest
        have hkey : alarmKeyOf a0 = AlarmKey.direct n sev := by
          rcases classify_sev hcl with h | h <;>
            simp [alarmKeyOf, ha0, h]
        have hLatU_at : latU (AlarmKey.direct n sev) = some now := by
          simp [hlatU]
        have hLatU_other : ∀ k, k ≠ AlarmKey.direct n sev → latU k = lat k := by
          intro k hk
          simp [hlatU, hk]
        have hkey_tail : ∀ a ∈ (checkDirectAlarms bank now rest latU).2,
            alarmKeyOf a ≠ AlarmKey.direct n sev := by
          intro a ha heq
          have h2 := (i1 a ha).2.2
          rw [h2] at heq
          have : a.sensor = n := by
            injection heq
          exact hn (this ▸ (i1 a ha).2.1)
        refine ⟨?_, ?_, ?_, ?_, ?_⟩
        · intro a ha
          rcases List.mem_cons.mp ha with rfl | ha'
          · exact ⟨rfl, List.mem_cons_self _ _, hkey⟩
          · exact ⟨(i1 a ha').1, List.mem_cons_of_mem _ (i1 a ha').2.1,
              (i1 a ha').2.2⟩
        · intro k
          rcases i2 k with h | ⟨⟨m, hm, hex⟩, he⟩
          · by_cases hk : k = AlarmKey.direct n sev
            · refine Or.inr ⟨⟨n, List.mem_cons_self _ _, sev, hk⟩, ?_⟩
              rw [h, hk, hLatU_at]
            · exact Or.inl (h.trans (hLatU_other k hk))
          · exact Or.inr ⟨⟨m, List.mem_cons_of_mem _ hm, hex⟩, he⟩
        · intro a ha t ht
          rcases List.mem_cons.mp ha with rfl | ha'
          · rw [hkey] at ht
            unfold directBlocked at hb
            rw [ht] at hb
            simp only [decide_eq_false_iff_not, not_lt] at hb
            exact hb
          · have hne := hkey_tail a ha'
            have : latU (alarmKeyOf a) = some t := by
              rw [hLatU_other _ hne]
              exact ht
            exact i3 a ha' t this
        · refine List.Pairwise.cons ?_ i4
          intro b hb'
          intro hsens
          have hbs : b.sensor ∈ rest := (i1 b hb').2.1
          rw [ha0] at hsens
          simp only at hsens
          exact hn (hsens ▸ hbs)
        · intro a ha
          rcases List.mem_cons.mp ha with rfl | ha'
          · rw [hkey]
            rcases i2 (AlarmKey.direct n sev) with h | ⟨_, he⟩
            · rw [h, hLatU_at]
            · exact he
          · exact i5 a ha'

/-- What one pass of the trend-alarm loop guarantees, for any iteration
list without repeated sensors: all emitted alarms are stamped `now`,
carry the trend cooldown key of a listed sensor, passed the 300-second
cooldown test against the incoming table, have pairwise distinct
sensors, and are recorded in the outgoing table at `now`; the table is
altered only at trend keys of listed sensors, and only to `now`. -/
theorem checkTrendAlarms_spec (bank : SensorName → SensorChannel)
    (trendMap : SensorName → TrendData) (now : ℚ) :
    ∀ (l : List SensorName) (lat : AlarmKey → Option ℚ), l.Nodup →
    (∀ a ∈ (checkTrendAlarms bank trendMap now l lat).2,
        a.timestamp = now ∧ a.sensor ∈ l ∧
          alarmKeyOf a = .trendKey a.sensor) ∧
      (∀ k, (checkTrendAlarms bank trendMap now l lat).1 k = lat k ∨
        ((∃ n ∈ l, k = AlarmKey.trendKey n) ∧
          (checkTrendAlarms bank trendMap now l lat).1 k = some now)) ∧
      (∀ a ∈ (checkTrendAlarms bank trendMap now l lat).2, ∀ t,
        lat (alarmKeyOf a) = some t → trendCooldown ≤ now - t) ∧
      (checkTrendAlarms bank trendMap now l lat).2.Pairwise
        (fun a b => a.sensor ≠ b.sensor) ∧
      (∀ a ∈ (checkTrendAlarms bank trendMap now l lat).2,
        (checkTrendAlarms bank trendMap now l lat).1 (alarmKeyOf a) =
          some now) := by
  intro l
  induction l with
  | nil =>
    intro lat _
    refine ⟨?_, fun k => Or.inl rfl, ?_, List.Pairwise.nil, ?_⟩ <;>
      simp [checkTrendAlarms]
  | cons n rest ih =>
    intro lat hnd
    have hn : n ∉ rest := (List.nodup_cons.mp hnd).1
    have hrest : rest.Nodup := (List.nodup_cons.mp hnd).2
    have lift : checkTrendAlarms bank trendMap now (n :: rest) lat =
        checkTrendAlarms bank trendMap now rest lat →
        (∀ a ∈ (checkTrendAlarms bank trendMap now (n :: rest) lat).2,
            a.timestamp = now ∧ a.sensor ∈ n :: rest ∧
              alarmKeyOf a = .trendKey a.sensor) ∧
          (∀ k, (checkTrendAlarms bank trendMap now (n :: rest) lat).1 k =
              lat k ∨
            ((∃ m ∈ n :: rest, k = AlarmKey.trendKey m) ∧
              (checkTrendAlarms bank trendMap now (n :: rest) lat).1 k =
                some now)) ∧
          (∀ a ∈ (checkTrendAlarms bank trendMap now (n :: rest) lat).2, ∀ t,
            lat (alarmKeyOf a) = some t → trendCooldown ≤ now - t) ∧
          (checkTrendAlarms bank trendMap now (n :: rest) lat).2.Pairwise
            (fun a b => a.sensor ≠ b.sensor) ∧
          (∀ a ∈ (checkTrendAlarms bank trendMap now (n :: rest) lat).2,
            (checkTrendAlarms bank trendMap now (n :: rest) lat).1
              (alarmKeyOf a) = some now) := by
      intro hfold
      rw [hfold]
      obtain ⟨i1, i2, i3, i4, i5⟩ := ih lat hrest
      refine ⟨?_, ?_, i3, i4, i5⟩
      · intro a ha
        exact ⟨(i1 a ha).1, List.mem_cons_of_mem _ (i1 a ha).2.1,
          (i1 a ha).2.2⟩
      · intro k
        rcases i2 k with h | ⟨⟨m, hm, hex⟩, he⟩
        · exact Or.inl h
        · exact Or.inr ⟨⟨m, List.mem_cons_of_mem _ hm, hex⟩, he⟩
    by_cases hc1 : (trendMap n).r_squared > 0.7 ∧ (trendMap n).slope > 0
    · by_cases hc2 : (bank n).value + (trendMap n).slope * 10 >
          (bank n).alarm_threshold
      · cases hb : trendAllowed lat (AlarmKey.trendKey n) now with
        | false =>
          refine lift ?_
          simp only [checkTrendAlarms, if_pos hc1, if_pos hc2, hb,
            Bool.false_eq_true, if_false]
        | true =>
          have hfold : checkTrendAlarms bank trendMap now (n :: rest) lat =
              ((checkTrendAlarms bank trendMap now rest
                  (fun k' => if k' = AlarmKey.trendKey n
                    then some now else lat k')).1,
                { timestamp := now, sensor := n, severity := .MEDIUM,
                  priority := 3, value := (bank n).value,
                  threshold := (bank n).alarm_threshold } ::
                (checkTrendAlarms bank trendMap now rest
                  (fun k' => if k' = AlarmKey.trendKey n
                    then some now else lat k')).2) := by
            simp only [checkTrendAlarms, if_pos hc1, if_pos hc2, hb, if_true]
          rw [hfold]
          set latU := fun k' => if k' = AlarmKey.trendKey n
            then some now else lat k' with hlatU
          set a0 : Alarm :=
            { timestamp := now, sensor := n, severity := .MEDIUM,
              priority := 3, value := (bank n).value,
              threshold := (bank n).alarm_threshold } with ha0
          obtain ⟨i1, i2, i3, i4, i5⟩ := ih latU hrest
          have hkey : alarmKeyOf a0 = AlarmKey.trendKey n := rfl
          have hLatU_at : latU (AlarmKey.trendKey n) = some now := by
            simp [hlatU]
          have hLatU_other : ∀ k, k ≠ AlarmKey.trendKey n →
              latU k = lat k := by
            intro k hk
            simp [hlatU, hk]
          have hkey_tail : ∀ a ∈ (checkTrendAlarms bank trendMap now rest
              latU).2, alarmKeyOf a ≠ AlarmKey.trendKey n := by
            intro a ha heq
            have h2 := (i1 a ha).2.2
            rw [h2] at heq
            have : a.sensor = n := by
              injection heq
            exact hn (this ▸ (i1 a ha).2.1)
          refine ⟨?_, ?_, ?_, ?_, ?_⟩
          · intro a ha
            rcases List.mem_cons.mp ha with rfl | ha'
            · exact ⟨rfl, List.mem_cons_self _ _, hkey⟩
            · exact ⟨(i1 a ha').1, List.mem_cons_of_mem _ (i1 a ha').2.1,
                (i1 a ha').2.2⟩
          · intro k
            rcases i2 k with h | ⟨⟨m, hm, hex⟩, he⟩
            · by_cases hk : k = AlarmKey.trendKey n
              · refine Or.inr ⟨⟨n, List.mem_cons_self _ _, hk⟩, ?_⟩
                rw [h, hk, hLatU_at]
              · exact Or.inl (h.trans (hLatU_other k hk))
            · exact Or.inr ⟨⟨m, List.mem_cons_of_mem _ hm, hex⟩, he⟩
          · intro a ha t ht
            rcases List.mem_cons.mp ha with rfl | ha'
            · rw [hkey] at ht
              unfold trendAllowed at hb
              rw [ht] at hb
              simp only [decide_eq_true_eq] at hb
              exact le_of_lt hb
            · have hne := hkey_tail a ha'
              have : latU (alarmKeyOf a) = some t := by
                rw [hLatU_other _ hne]
                exact ht
              exact i3 a ha' t this
          · refine List.Pairwise.cons ?_ i4
            intro b hb' hsens
            have hbs : b.sensor ∈ rest := (i1 b hb').2.1
            rw [ha0] at hsens
            simp only at hsens
            exact hn (hsens ▸ hbs)
          · intro a ha
            rcases List.mem_cons.mp ha with rfl | ha'
            · rw [hkey]
              rcases i2 (AlarmKey.trendKey n) with h | ⟨_, he⟩
              · rw [h, hLatU_at]
              · exact he
            · exact i5 a ha'
      · refine lift ?_
        simp only [checkTrendAlarms, if_pos hc1, if_neg hc2]
    · refine lift ?_
      simp only [checkTrendAlarms, if_neg hc1]

/-- What one complete alarm evaluation guarantees: every alarm emitted
in a tick is stamped with the tick's clock; emitted alarms carry
pairwise distinct cooldown keys; each passed its key's cooldown test
against the incoming table; the table is only ever overwritten with the
current clock; and every emitted alarm's key is recorded at the current
clock. -/
theorem alarmTickStep_spec (now : ℚ) (bank : SensorName → SensorChannel)
    (trendMap : SensorName → TrendData) (lat : AlarmKey → Option ℚ) :
    (∀ a ∈ (alarmTickStep now bank trendMap lat).2, a.timestamp = now) ∧
      (alarmTickStep now bank trendMap lat).2.Pairwise
        (fun a b => alarmKeyOf a ≠ alarmKeyOf b) ∧
      (∀ a ∈ (alarmTickStep now bank trendMap lat).2, ∀ t,
        lat (alarmKeyOf a) = some t →
          cooldownOf (alarmKeyOf a) ≤ now - t) ∧
      (∀ k t, (alarmTickStep now bank trendMap lat).1 k = some t →
        lat k = some t ∨ t = now) ∧
      (∀ a ∈ (alarmTickStep now bank trendMap lat).2,
        (alarmTickStep now bank trendMap lat).1 (alarmKeyOf a) =
          some now) ∧
      (∀ k, (alarmTickStep now bank trendMap lat).1 k = lat k ∨
        (alarmTickStep now bank trendMap lat).1 k = some now) := by
  obtain ⟨d1, d2, d3, d4, d5⟩ :=
    checkDirectAlarms_spec bank now sensorOrder lat (by decide)
  obtain ⟨t1, t2, t3, t4, t5⟩ :=
    checkTrendAlarms_spec bank trendMap now sensorOrder
      (checkDirectAlarms bank now sensorOrder lat).1 (by decide)
  have hsnd : (alarmTickStep now bank trendMap lat).2 =
      (checkDirectAlarms bank now sensorOrder lat).2 ++
      (checkTrendAlarms bank trendMap now sensorOrder
        (checkDirectAlarms bank now sensorOrder lat).1).2 := rfl
  have hfst : (alarmTickStep now bank trendMap lat).1 =
      (checkTrendAlarms bank trendMap now sensorOrder
        (checkDirectAlarms bank now sensorOrder lat).1).1 := rfl
  have hd_lat1_trend : ∀ m : SensorName,
      (checkDirectAlarms bank now sensorOrder lat).1 (AlarmKey.trendKey m) =
        lat (AlarmKey.trendKey m) := by
    intro m
    rcases d2 (AlarmKey.trendKey m) with h | ⟨⟨x, _, sev, hx⟩, _⟩
    · exact h
    · exact absurd hx (by simp)
  refine ⟨?_, ?_, ?_, ?_, ?_, ?_⟩
  · intro a ha
    rw [hsnd] at ha
    rcases List.mem_append.mp ha with h | h
    · exact (d1 a h).1
    · exact (t1 a h).1
  · rw [hsnd]
    refine List.pairwise_append.mpr ⟨?_, ?_, ?_⟩
    · refine List.Pairwise.imp_of_mem ?_ d4
      intro a b ha hb hs heq
      rw [(d1 a ha).2.2, (d1 b hb).2.2] at heq
      exact hs (by injection heq)
    · refine List.Pairwise.imp_of_mem ?_ t4
      intro a b ha hb hs heq
      rw [(t1 a ha).2.2, (t1 b hb).2.2] at heq
      exact hs (by injection heq)
    · intro a ha b hb heq
      rw [(d1 a ha).2.2, (t1 b hb).2.2] at heq
      exact absurd heq (by simp)
  · intro a ha t ht
    rw [hsnd] at ha
    rcases List.mem_append.mp ha with h | h
    · have hc : cooldownOf (alarmKeyOf a) = alarmCooldown := by
        rw [(d1 a h).2.2]
        rfl
      rw [hc]
      exact d3 a h t ht
    · have hc : cooldownOf (alarmKeyOf a) = trendCooldown := by
        rw [(t1 a h).2.2]
        rfl
      rw [hc]
      have hlat1 : (checkDirectAlarms bank now sensorOrder lat).1
          (alarmKeyOf a) = some t := by
        rw [(t1 a h).2.2, hd_lat1_trend a.sensor]
        rw [(t1 a h).2.2] at ht
        exact ht
      exact t3 a h t hlat1
  · intro k t ht
    rw [hfst] at ht
    rcases t2 k with h | ⟨_, he⟩
    · rw [h] at ht
      rcases d2 k with h' | ⟨_, he'⟩
      · rw [h'] at ht
        exact Or.inl ht
      · rw [he'] at ht
        exact Or.inr (by injection ht with h''; exact h''.symm)
    · rw [he] at ht
      exact Or.inr (by injection ht with h''; exact h''.symm)
  · intro a ha
    rw [hsnd] at ha
    rw [hfst]
    rcases List.mem_append.mp ha with h | h
    · rcases t2 (alarmKeyOf a) with h' | ⟨_, he⟩
      · rw [h']
        exact d5 a h
      · exact he
    · exact t5 a h
  · intro k
    rw [hfst]
    rcases t2 k with h | ⟨_, he⟩
    · rcases d2 k with h' | ⟨_, he'⟩
      · exact Or.inl (h.trans h')
      · exact Or.inr (h.trans he')
    · exact Or.inr he

/-- The inductive invariant of the cooldown discipline: the alarms
emitted so far are pairwise cooldown-separated, each emitted alarm's
key is recorded in the table at a time no earlier than its own
timestamp, and all recorded times and timestamps are bounded by the
current clock `τ`. -/
def CooldownInv (τ : ℚ) (lat : AlarmKey → Option ℚ)
    (emitted : List Alarm) : Prop :=
  emitted.Pairwise alarmSep ∧
    (∀ a ∈ emitted, ∃ t, lat (alarmKeyOf a) = some t ∧ a.timestamp ≤ t) ∧
    (∀ k t, lat k = some t → t ≤ τ) ∧
    (∀ a ∈ emitted, a.timestamp ≤ τ)

theorem runAlarmTicks_inv :
    ∀ (ticks : List AlarmTick) (lat : AlarmKey → Option ℚ)
      (emitted : List Alarm) (τ : ℚ),
    CooldownInv τ lat emitted →
    List.Chain (· ≤ ·) τ (ticks.map AlarmTick.now) →
    (emitted ++ (runAlarmTicks ticks lat).2).Pairwise alarmSep := by
  intro ticks
  induction ticks with
  | nil =>
    intro lat emitted τ hinv _
    simpa [runAlarmTicks] using hinv.1
  | cons tk rest ih =>
    intro lat emitted τ hinv hch
    obtain ⟨hP, hBound, hLatBound, hTsBound⟩ := hinv
    rw [List.map_cons] at hch
    obtain ⟨hτ, hch'⟩ := List.chain_cons.mp hch
    obtain ⟨s1, s2, s3, s4, s5, s6⟩ :=
      alarmTickStep_spec tk.now tk.bank tk.trendMap lat
    have hrun : (runAlarmTicks (tk :: rest) lat).2 =
        (alarmTickStep tk.now tk.bank tk.trendMap lat).2 ++
        (runAlarmTicks rest
          (alarmTickStep tk.now tk.bank tk.trendMap lat).1).2 := rfl
    rw [hrun, ← List.append_assoc]
    refine ih (alarmTickStep tk.now tk.bank tk.trendMap lat).1
      (emitted ++ (alarmTickStep tk.now tk.bank tk.trendMap lat).2)
      tk.now ⟨?_, ?_, ?_, ?_⟩ hch'
    · refine List.pairwise_append.mpr ⟨hP, ?_, ?_⟩
      · exact s2.imp fun hne heq => absurd heq hne
      · intro a ha b hb
        intro heq
        obtain ⟨t, hlat, hts⟩ := hBound a ha
        have hco := s3 b hb t (by rw [← heq]; exact hlat)
        have hbts : b.timestamp = tk.now := s1 b hb
        rw [heq, hbts]
        have hts2 : a.timestamp ≤ t := hts
        linarith
    · intro a ha
      rcases List.mem_append.mp ha with h | h
      · obtain ⟨t, hlat, hts⟩ := hBound a h
        rcases s6 (alarmKeyOf a) with h' | h'
        · exact ⟨t, h'.trans hlat, hts⟩
        · exact ⟨tk.now, h', le_trans (hTsBound a h) hτ⟩
      · exact ⟨tk.now, s5 a h, le_of_eq (s1 a h)⟩
    · intro k t ht
      rcases s4 k t ht with h | h
      · exact le_trans (hLatBound k t h) hτ
      · exact le_of_eq h
    · intro a ha
      rcases List.mem_append.mp ha with h | h
      · exact le_trans (hTsBound a h) hτ
      · exact le_of_eq (s1 a h)

/-- C2: over any trace of alarm evaluations with nondecreasing clock —
and `update_sensors` performs exactly one such evaluation
(`alarmTickStep`) per tick — no two alarms emitted with the same
cooldown key are ever timestamped closer together than the key's
cooldown window: 30 seconds for the direct `(channel, CRITICAL/HIGH)`
keys, 300 seconds for the `(channel, trend)` key. -/
theorem alarm_cooldown_separation (ticks : List AlarmTick)
    (h : List.Chain' (· ≤ ·) (ticks.map AlarmTick.now)) :
    (runAlarmTicks ticks (fun _ => none)).2.Pairwise alarmSep := by
  cases ticks with
  | nil => exact List.Pairwise.nil
  | cons tk rest =>
    have hch : List.Chain (· ≤ ·) tk.now
        ((tk :: rest).map AlarmTick.now) := by
      rw [List.map_cons]
      refine List.Chain.cons le_rfl ?_
      rw [List.map_cons] at h
      exact h
    have hinv : CooldownInv tk.now (fun _ => none) [] := by
      refine ⟨List.Pairwise.nil, ?_, ?_, ?_⟩
      · intro a ha
        exact absurd ha (List.not_mem_nil a)
      · intro k t ht
        exact absurd ht (by simp)
      · intro a ha
        exact absurd ha (List.not_mem_nil a)
    have := runAlarmTicks_inv (tk :: rest) (fun _ => none) [] tk.now hinv hch
    simpa using this

/-- Witness for C2: the three-tick scenario trace (clocks 0, 5, 10). -/
theorem alarm_cooldown_separation_witness :
    List.Chain' (· ≤ ·) (c5Ticks.map AlarmTick.now) ∧
      (runAlarmTicks c5Ticks (fun _ => none)).2.Pairwise alarmSep :=
  have hch : List.Chain' (· ≤ ·) (c5Ticks.map AlarmTick.now) :=
    List.Chain'.cons (by decide)
      (List.Chain'.cons (by decide) (List.chain'_singleton 10))
  ⟨hch, alarm_cooldown_separation c5Ticks hch⟩

end ESS
